import Mathlib

/-!
Verification development for the synthetic chat-activity simulator
(message-pool.js, synthetic-people.js, presence-manager.js, typing-engine.js,
simulation-engine.js).

Shallow embedding conventions:

* JavaScript strings are modelled as lists of UTF-16 code units
  (`Ustr := List Nat`), matching the semantics of `charCodeAt`, `slice`
  and `length` used by the source.
* The seeded generator `xorshift32` keeps its 32-bit unsigned state as a
  `Nat` that is always reduced modulo `2 ^ 32`; a raw draw is the state
  itself and the JS float `rnd()` value is `state / 2 ^ 32`.
* JS `Number` arithmetic on the quantities used by these files is modelled
  with exact rational / integer arithmetic.  Every comparison and
  `Math.floor` / `Math.round` in the modelled code paths acts at a distance
  from an IEEE-754 rounding boundary that is many orders of magnitude
  larger than the float error of the operands, so the exact model and the
  float semantics agree on all the runs below.
* `Math.random()`, `Date.now()` and DOM/global-registry reads are
  nondeterministic inputs; they are passed in explicitly as oracle
  streams or fixed parameters.
* The identifier `pickFrom` used by message-pool.js is not defined in that
  file (and the only definition in the repository is local to the IIFE of
  synthetic-people.js), so evaluating it throws a `ReferenceError`; this is
  modelled by the error value `JsErr.pickFromUndefined` propagated through
  `Except`.
-/

/-- UTF-16 code-unit string, the model of a JavaScript string. -/
abbrev Ustr := List Nat

/-- The 32-bit modulus used by the unsigned coercions in the source. -/
def U32 : Nat := 4294967296

/-- JS ToUint32 of an integer value, the model of the coercion done by
the expression `seed >>> 0` in each copy of `xorshift32`. -/
def toUint32 (n : Int) : Nat := (n % (U32 : Int)).toNat

/-- Initial state of `xorshift32`: the source computes
`(seed >>> 0) || 0x811c9dc5`, so a seed whose unsigned coercion is `0`
falls back to the default constant. -/
def xsInit (seed : Int) : Nat :=
  let s := toUint32 seed
  if s = 0 then 0x811c9dc5 else s

/-- One step of the xorshift32 state update:
`x ^= x << 13; x ^= x >>> 17; x ^= x << 5`, each masked back to 32 bits. -/
def xsStep (x : Nat) : Nat :=
  let a := (x ^^^ (x * 8192)) % U32
  let b := a ^^^ (a / 131072)
  (b ^^^ (b * 32)) % U32

/-- State after `n` calls of the generator created from `seed` (the raw
state is returned; the JS float output is `state / 2 ^ 32`). -/
def xsNth (seed : Int) : Nat → Nat
  | 0 => xsInit seed
  | n + 1 => xsStep (xsNth seed n)

/-- An exact fraction of integers with positive denominator, the model of
a non-integral JS number value.  Comparisons cross-multiply, so no
normalisation is ever needed and every operation is plain integer
arithmetic. -/
structure Frac where
  num : Int
  den : Int
deriving Repr, DecidableEq

/-- The fraction denoted by an integer. -/
def Frac.ofInt (n : Int) : Frac := ⟨n, 1⟩

/-- Exact comparison of two fractions with positive denominators. -/
def Frac.lt (a b : Frac) : Bool := decide (a.num * b.den < b.num * a.den)

/-- JS `Math.ceil` of a fraction with positive denominator. -/
def Frac.ceil (a : Frac) : Int := (a.num + a.den - 1).fdiv a.den

/-- JS comparison `rnd() < num/den` for a raw xorshift state `x`, where
`num/den` is the exact value of the literal in the source. -/
def jsLt (x num den : Nat) : Bool := decide (x * den < num * U32)

/-- JS comparison `rnd() < f` for a raw state `x` against a fraction-valued
option (the reply / attachment fractions). -/
def jsLtF (x : Nat) (f : Frac) : Bool := decide ((x : Int) * f.den < f.num * 4294967296)

/-- JS `Math.floor(rnd() * n)` for a raw state `x` and a natural bound. -/
def jsFloorMul (x n : Nat) : Nat := x * n / U32

/-- JS `Math.round(n / d)` for integers with `d > 0` (round half towards
plus infinity, which is what `Math.round` does). -/
def jsRoundDiv (n d : Int) : Int := (2 * n + d).fdiv (2 * d)

/-- JS helper `clamp(v,a,b) = Math.max(a, Math.min(b, v))` over integers
(identical helper in message-pool.js, typing-engine.js,
simulation-engine.js and synthetic-people.js). -/
def jsClamp (v a b : Int) : Int := max a (min b v)

/-- JS `clamp` over exact fractions (used for the population size, which
is a JS float): `Math.max(a, Math.min(b, v))` with integer bounds. -/
def jsClampF (v : Frac) (a b : Int) : Frac :=
  let m := if Frac.lt (Frac.ofInt b) v then Frac.ofInt b else v
  if Frac.lt m (Frac.ofInt a) then Frac.ofInt a else m

/-- JS `a || b` for numeric `a` given as an optional integer: `none`
models an absent (or NaN, hence falsy) argument and `0` is falsy. -/
def jsOr (o : Option Int) (d : Int) : Int :=
  match o with
  | some v => if v = 0 then d else v
  | none => d

/-- JS `a || b` for numeric `a` over exact fractions. -/
def jsOrF (o : Option Frac) (d : Frac) : Frac :=
  match o with
  | some v => if v.num = 0 then d else v
  | none => d

/-- Decimal digits of a natural number as UTF-16 code units (the model of
JS number-to-string concatenation for a nonnegative integer). -/
def natToUnits (n : Nat) : Ustr :=
  (Nat.toDigits 10 n).map Char.toNat

/-- UTF-16 encoding of one Unicode code point (surrogate pair above the
basic multilingual plane). -/
def charUtf16 (c : Char) : List Nat :=
  let n := c.toNat
  if n < 65536 then [n]
  else [55296 + (n - 65536) / 1024, 56320 + (n - 65536) % 1024]

/-- UTF-16 code units of a string literal. -/
def strUnits (s : String) : Ustr := (s.toList.map charUtf16).flatten

/-- DJB2-style content hash from message-pool.js:
`h = 5381; h = ((h << 5) + h) ^ charCode` over all code units, returned as
the final unsigned 32-bit state.  The source renders it in base 36 before
using it as an LRU key; base-36 rendering is injective on 32-bit values,
so the raw state is an equivalent key. -/
def contentHash (s : Ustr) : Nat :=
  s.foldl (fun h c => ((h * 32 + h) % U32) ^^^ c) 5381

/-- The `hashCode` helper at the bottom of message-pool.js:
`h = ((h << 5) - h) + charCode; h |= 0` over all code units, then
`Math.abs(h >>> 0)`, i.e. the unsigned 32-bit state. -/
def hashCode (s : Ustr) : Nat :=
  s.foldl (fun h c => (31 * h + c) % U32) 0

/-- The generator function itself, as a stream of raw 32-bit states: the
source `xorshift32(seed)` returns a closure whose n-th call returns the
n-th state divided by `2 ^ 32`; `xorshift32 seed n` is the state before
division after `n` update steps. -/
def xorshift32 (seed : Int) (n : Nat) : Nat := xsNth seed n
/-- UTF-16 code units of the DEFAULT_PHRASES array in message-pool.js -/
def DEFAULT_PHRASES : List Ustr := [
  [65, 110, 121, 111, 110, 101, 32, 119, 97, 116, 99, 104, 105, 110, 103, 32, 116, 104, 101, 32, 109, 97, 114, 107, 101, 116, 63],
  [73, 39, 108, 108, 32, 119, 97, 105, 116, 32, 102, 111, 114, 32, 116, 104, 101, 32, 114, 101, 116, 114, 97, 99, 101, 109, 101, 110, 116, 46],
  [66, 111, 117, 103, 104, 116, 32, 109, 111, 114, 101, 32, 111, 110, 32, 116, 104, 101, 32, 100, 105, 112, 32, 55357, 56960],
  [83, 116, 111, 112, 32, 108, 111, 115, 115, 32, 115, 101, 116, 46],
  [84, 80, 32, 104, 105, 116, 44, 32, 116, 97, 107, 105, 110, 103, 32, 112, 114, 111, 102, 105, 116, 46],
  [67, 97, 110, 32, 115, 111, 109, 101, 111, 110, 101, 32, 115, 104, 97, 114, 101, 32, 116, 104, 101, 32, 115, 105, 103, 110, 97, 108, 63],
  [78, 105, 99, 101, 32, 99, 97, 108, 108, 32, 111, 110, 32, 116, 104, 97, 116, 32, 108, 97, 115, 116, 32, 116, 114, 97, 100, 101, 46],
  [84, 104, 97, 116, 32, 99, 97, 110, 100, 108, 101, 32, 119, 97, 115, 32, 119, 105, 108, 100, 32, 55357, 56837],
  [72, 111, 108, 100, 105, 110, 103, 32, 108, 111, 110, 103, 44, 32, 115, 116, 114, 111, 110, 103, 32, 102, 117, 110, 100, 97, 109, 101, 110, 116, 97, 108, 115, 46],
  [87, 104, 97, 116, 32, 108, 101, 118, 101, 108, 32, 97, 114, 101, 32, 121, 111, 117, 32, 119, 97, 116, 99, 104, 105, 110, 103, 63],
  [83, 101, 101, 32, 121, 111, 117, 32, 105, 110, 32, 116, 104, 101, 32, 103, 114, 101, 101, 110, 46],
  [65, 118, 111, 105, 100, 32, 70, 79, 77, 79, 44, 32, 115, 101, 116, 32, 97, 32, 112, 108, 97, 110, 46],
  [78, 101, 119, 115, 32, 106, 117, 115, 116, 32, 112, 111, 112, 112, 101, 100, 32, 8212, 32, 99, 104, 101, 99, 107, 32, 105, 116, 32, 111, 117, 116, 46],
  [76, 111, 111, 107, 105, 110, 103, 32, 102, 111, 114, 32, 101, 110, 116, 114, 121, 32, 97, 114, 111, 117, 110, 100, 32, 104, 101, 114, 101, 46],
  [84, 101, 115, 116, 105, 110, 103, 32, 115, 116, 114, 97, 116, 101, 103, 121, 32, 8212, 32, 105, 103, 110, 111, 114, 101, 32, 109, 121, 32, 116, 114, 97, 100, 101, 115, 46]
]

/-- UTF-16 code units of SAMPLE_ATTACHMENTS in message-pool.js -/
def SAMPLE_ATTACHMENTS : List Ustr := [
  [99, 104, 97, 114, 116, 45, 49, 46, 112, 110, 103],
  [115, 99, 114, 101, 101, 110, 115, 104, 111, 116, 45, 48, 49, 46, 112, 110, 103],
  [116, 114, 97, 100, 101, 45, 114, 101, 112, 111, 114, 116, 46, 112, 100, 102],
  [118, 111, 105, 99, 101, 45, 109, 115, 103, 45, 49, 50, 46, 109, 112, 51],
  [115, 99, 114, 101, 101, 110, 115, 104, 111, 116, 45, 48, 50, 46, 106, 112, 103]
]

/-- UTF-16 code units of FIRSTS in synthetic-people.js -/
def FIRSTS : List Ustr := [
  [65, 118, 97],
  [78, 111, 97, 104],
  [76, 105, 97, 109],
  [79, 108, 105, 118, 105, 97],
  [77, 97, 121, 97],
  [82, 101, 120],
  [90, 101, 100],
  [78, 105, 110, 97],
  [79, 109, 97, 114],
  [75, 111, 102, 105],
  [83, 97, 103, 101],
  [76, 117, 110, 97],
  [75, 97, 105],
  [90, 97, 114, 97],
  [83, 97, 109],
  [65, 109, 97, 114, 97],
  [68, 105, 101, 103, 111],
  [72, 97, 110, 97],
  [89, 117, 107, 105],
  [76, 195, 169, 97]
]

/-- UTF-16 code units of LASTS in synthetic-people.js -/
def LASTS : List Ustr := [
  [79, 107, 111, 114, 111],
  [83, 109, 105, 116, 104],
  [78, 103, 117, 121, 101, 110],
  [75, 104, 97, 110],
  [83, 105, 108, 118, 97],
  [73, 118, 97, 110, 111, 118],
  [71, 97, 114, 99, 105, 97],
  [65, 100, 97, 109, 115],
  [75, 111, 117, 97, 109, 101],
  [75, 105, 109],
  [79, 115, 101, 105],
  [80, 111, 112, 111, 118],
  [70, 101, 114, 110, 195, 161, 110, 100, 101, 122],
  [66, 114, 111, 119, 110],
  [79, 39, 78, 101, 105, 108]
]

/-- UTF-16 code units of the EMOJI array in synthetic-people.js -/
def SP_EMOJI : List Ustr := [
  [226, 339, 168],
  [240, 376, 8221, 165],
  [240, 376, 8217, 381],
  [240, 376, 166, 352],
  [240, 376, 179],
  [240, 376, 353, 8364],
  [240, 376, 732, 8230],
  [240, 376, 8221, 8217],
  [240, 376, 381, 175],
  [240, 376, 8217, 176],
  [240, 376, 8220, 710],
  [226, 173],
  [240, 376, 732, 352],
  [240, 376, 732, 381],
  [240, 376, 164]
]

/-- UTF-16 code units of the cc country-flag array in makeDisplayName -/
def FLAG_CC : List Ustr := [
  [240, 376, 8225, 179, 240, 376, 8225, 172],
  [240, 376, 8225, 172, 240, 376, 8225, 173],
  [240, 376, 8225, 191, 240, 376, 8225, 166],
  [240, 376, 8225, 186, 240, 376, 8225, 184],
  [240, 376, 8225, 172, 240, 376, 8225, 167],
  [240, 376, 8225, 167, 240, 376, 8225, 183],
  [240, 376, 8225, 174, 240, 376, 8225, 179],
  [240, 376, 8225, 170, 240, 376, 8225, 184],
  [240, 376, 8225, 181, 240, 376, 8225, 173]
]

/-- UTF-16 code units of countryHints in synthetic-people.js -/
def COUNTRY_HINTS : List Ustr := [
  [78, 71],
  [71, 72],
  [90, 65],
  [85, 83],
  [71, 66],
  [66, 82],
  [73, 78],
  [69, 83],
  [80, 72]
]

/-- Roles appearing in the repository: participants get VERIFIED, MOD or
ADMIN from synthetic-people.js; NONE and YOU appear in the data model and
the renderer as further possible role strings. -/
inductive Role where
  | NONE
  | VERIFIED
  | MOD
  | ADMIN
  | YOU
deriving Repr, DecidableEq, Inhabited

/-- The ReferenceError raised when message-pool.js evaluates the
identifier `pickFrom`, which is not in scope in that file. -/
inductive JsErr where
  | pickFromUndefined
deriving Repr, DecidableEq

namespace MessagePool

/-- A sender as read from `window.sampleMembers` or
`window.SyntheticPeople.people`, or built by the fallback branch of
`_generateMessageForIndex`.  Missing string fields are the empty string
(both are falsy under the `||` fallbacks of the source). -/
structure Sender where
  sid : Ustr
  sname : Ustr
  sdisplayName : Ustr
  srole : Option Role
  savatar : Ustr
deriving Repr, DecidableEq, Inhabited

/-- A message record as built by `_generateMessageForIndex`.  The
`attachment` field stores the picked filename; the source stores
`{ filename: pick, url: '/assets/' + pick }`, and the url is determined
by the filename. -/
structure Msg where
  mid : Ustr
  mname : Ustr
  displayName : Ustr
  role : Role
  avatar : Ustr
  text : Ustr
  out : Bool
  time : Int
  replyTo : Option Ustr
  pinned : Bool
  attachment : Option Ustr
deriving Repr, DecidableEq, Inhabited

/-- The `meta` object of the MessagePool singleton. -/
structure MPMeta where
  size : Int
  seedBase : Int
  spanDays : Int
  replyFraction : Frac
  attachmentFraction : Frac
deriving Repr, DecidableEq

/-- The mutable state of the MessagePool singleton that the generation
paths read: the materialized pool and the template fragments.  The
`_idIndex` lookup is rebuilt from `messages` and is not modelled
separately. -/
structure MPState where
  messages : List Msg
  meta : MPMeta
  templateFragments : List Ustr
deriving Repr, DecidableEq

/-- The global window state read by `_generateMessageForIndex` when
picking a sender. -/
structure MPEnv where
  sampleMembers : List Sender
  people : List Sender
deriving Repr, DecidableEq

/-- The options bag accepted by the MessagePool entry points.  `none`
models an absent option. -/
structure GenOpts where
  size : Option Int := none
  seedBase : Option Int := none
  startTimestamp : Option Int := none
  endTimestamp : Option Int := none
  spanDays : Option Int := none
  jitterMs : Option Int := none
  templates : Option (List Ustr) := none
  replyFraction : Option Frac := none
  attachmentFraction : Option Frac := none
  dedupeLRU : Option Int := none
  pageSize : Option Int := none
deriving Repr, DecidableEq

/-- The fallback sender of `_generateMessageForIndex`:
`{ id: 'sp_' + (i % 1000), displayName: 'Member ' + ((i % 500) + 1),
role: 'VERIFIED', avatar: '' }` (it has no `name` property). -/
def fallbackSender (i : Nat) : Sender :=
  { sid := [115, 112, 95] ++ natToUnits (i % 1000)
    sname := []
    sdisplayName := [77, 101, 109, 98, 101, 114, 32] ++ natToUnits (i % 500 + 1)
    srole := some .VERIFIED
    savatar := [] }

/-- JS `a || b` on strings: the empty string is falsy. -/
def jsOrU (a b : Ustr) : Ustr := if a = [] then b else a

/-- One fragment pick of the text loop:
`templates[Math.floor(rnd()*templates.length)] ||
DEFAULT_PHRASES[Math.floor(rnd()*DEFAULT_PHRASES.length)]` (a second draw
happens only when the first pick is falsy, i.e. absent or empty). -/
def pickFragment (templates : List Ustr) (x : Nat) : Ustr × Nat :=
  let x1 := xsStep x
  let frag := templates.getD (jsFloorMul x1 templates.length) []
  if frag = [] then
    let x2 := xsStep x1
    (DEFAULT_PHRASES.getD (jsFloorMul x2 DEFAULT_PHRASES.length) [], x2)
  else (frag, x1)

/-- Decimal rendering of the price token: the source computes
`(Math.round((rnd()*980 + 20) * 100) / 100).toFixed(2)`, which for the
integer `n` returned by the rounding prints `n / 100` with exactly two
decimals. -/
def priceUnits (n : Nat) : Ustr :=
  natToUnits (n / 100) ++ [46] ++ (if n % 100 < 10 then [48] else []) ++ natToUnits (n % 100)

/-- Core per-index generator `_generateMessageForIndex(i, opts)` of
message-pool.js.  Pure function of the per-index seed, the options, the
singleton state (templates and previous `messages` for the reply pick)
and the globals; `now` is the value of `Date.now()` during the call.
Returns `Except.error .pickFromUndefined` on the emoji-decoration branch,
which evaluates the undefined identifier `pickFrom`. -/
def _generateMessageForIndex (i : Nat) (opts : GenOpts) (st : MPState) (env : MPEnv)
    (now : Int) : Except JsErr Msg :=
  let seedBase := jsOr opts.seedBase (jsOr (some st.meta.seedBase) 4000)
  let x0 := xsInit (seedBase + (i : Int) * 15721)
  -- sender pick: first window.sampleMembers, then SyntheticPeople.people,
  -- each consuming one draw only when the list is nonempty
  let sx : Sender × Nat :=
    if env.sampleMembers.length ≠ 0 then
      let x := xsStep x0
      (env.sampleMembers.getD (jsFloorMul x env.sampleMembers.length) default, x)
    else if env.people.length ≠ 0 then
      let x := xsStep x0
      (env.people.getD (jsFloorMul x env.people.length) default, x)
    else (fallbackSender i, x0)
  let sender := sx.1
  let templates := match opts.templates with
    | some ts => ts
    | none => st.templateFragments
  -- fragment count and picks
  let x1 := xsStep sx.2
  let fragCount := if jsLt x1 12 100 then 2 else 1
  let tf1 := pickFragment templates x1
  let tx : Ustr × Nat :=
    if fragCount = 2 then
      let tf2 := pickFragment templates tf1.2
      (tf1.1 ++ [32] ++ tf2.1, tf2.2)
    else tf1
  -- price token or emoji decoration; the emoji branch evaluates the
  -- undefined identifier pickFrom and throws
  let px : Except JsErr (Ustr × Nat) :=
    let x := xsStep tx.2
    if jsLt x 18 100 then
      let x2 := xsStep x
      let n := (98000 * x2 + 2000 * U32 + 2147483648) / U32
      .ok (tx.1 ++ [32, 8212, 32, 36] ++ priceUnits n, x2)
    else
      let x2 := xsStep x
      if jsLt x2 12 100 then .error .pickFromUndefined else .ok (tx.1, x2)
  match px with
  | .error e => .error e
  | .ok (text2, x2) =>
    -- optional ending variation
    let ex : Ustr × Nat :=
      let x := xsStep x2
      if jsLt x 12 100 then
        let x3 := xsStep x
        (text2 ++ (if jsLt x3 1 2 then [33] else [46, 46, 46]), x3)
      else (text2, x)
    let text := ex.1
    -- attachment
    let attFrac := jsOrF opts.attachmentFraction (jsOrF (some st.meta.attachmentFraction) ⟨4, 100⟩)
    let ax : Option Ustr × Nat :=
      let x := xsStep ex.2
      if jsLtF x attFrac then
        let x3 := xsStep x
        (some (SAMPLE_ATTACHMENTS.getD (jsFloorMul x3 SAMPLE_ATTACHMENTS.length) []), x3)
      else (none, x)
    -- reply reference into the previously materialized pool
    let repFrac := jsOrF opts.replyFraction (jsOrF (some st.meta.replyFraction) ⟨3, 100⟩)
    let rx : Option Ustr × Nat :=
      let x := xsStep ax.2
      if jsLtF x repFrac && !st.messages.isEmpty then
        let x3 := xsStep x
        let idx := jsFloorMul x3 (min st.messages.length 100)
        (some ((st.messages.getD idx default).mid), x3)
      else (none, x)
    -- timestamp window
    let se : Int × Int :=
      if opts.startTimestamp.isSome || opts.endTimestamp.isSome then
        let s0 : Int := (opts.startTimestamp).getD 0
        let e0 : Int := (opts.endTimestamp).getD 0
        (if s0 = 0 then now - 31536000000 else s0, if e0 = 0 then now else e0)
      else
        let spanDays := jsOr opts.spanDays (jsOr (some st.meta.spanDays) 365)
        (now - spanDays * 86400000, now)
    let poolSize := jsOr opts.size (jsOr (some st.meta.size) 1)
    -- frac = i / Math.max(1, poolSize - 1) when poolSize > 1, else 0;
    -- baseTime = Math.round(startTs + Math.round(frac * (endTs - startTs)))
    -- (the outer round is the identity on the integer sum)
    let baseTime : Int :=
      se.1 + (if poolSize > 1 then
        jsRoundDiv ((i : Int) * (se.2 - se.1)) (max 1 (poolSize - 1)) else 0)
    let jitterMs := jsOr opts.jitterMs 1800000
    let xj := xsStep rx.2
    -- localJitter = Math.round((rnd() - 0.5) * 2 * jitterMs)
    let localJitter := jsRoundDiv ((2 * (xj : Int) - 4294967296) * jitterMs) 4294967296
    let time := max 0 (baseTime + localJitter)
    .ok
      { mid := [109, 115, 103, 95] ++ natToUnits (i + 1) ++ [95] ++
          natToUnits (hashCode (text.take 80))
        mname := jsOrU (jsOrU sender.sname sender.sdisplayName)
          ([77, 101, 109, 98, 101, 114, 95] ++ natToUnits (i % 500 + 1))
        displayName := jsOrU (jsOrU sender.sdisplayName sender.sname)
          ([77, 101, 109, 98, 101, 114, 32] ++ natToUnits (i % 500 + 1))
        role := (sender.srole).getD .VERIFIED
        avatar := sender.savatar
        text := text
        out := false
        time := time
        replyTo := rx.1
        pinned := false
        attachment := ax.1 }

/-- One `a || DEFAULT_PHRASES[...]` pick inside `preGenerateTemplates`
(the base entries are nonempty in every modelled run, so the fallback
draw never fires there, but it is modelled). -/
def preGenPick (base : List Ustr) (x : Nat) : Ustr × Nat :=
  let x1 := xsStep x
  let a := base.getD (jsFloorMul x1 base.length) []
  if a = [] then
    let x2 := xsStep x1
    (DEFAULT_PHRASES.getD (jsFloorMul x2 DEFAULT_PHRASES.length) [], x2)
  else (a, x1)

/-- Body of the `while(this.templateFragments.length < n)` loop of
`preGenerateTemplates`; each iteration appends exactly one candidate, so
the loop runs `n - length` times. -/
def preGenLoop (base : List Ustr) : Nat → Nat → List Ustr → List Ustr
  | 0, _, acc => acc
  | fuel + 1, x, acc =>
    let ap := preGenPick base x
    let bp := preGenPick base ap.2
    let xj := xsStep bp.2
    let joiner : Ustr := if jsLt xj 1 2 then [32, 8212, 32] else [32]
    let cand := (ap.1 ++ joiner ++ bp.1).take 280
    preGenLoop base fuel xj (acc ++ [cand])

/-- `preGenerateTemplates(n)`: expands the fragment pool to `n` entries by
recombining the current fragments with a generator seeded from
`this.meta.seedBase || 4000`. -/
def preGenerateTemplates (st : MPState) (nArg : Int) : List Ustr :=
  let n := max 50 (jsOr (some nArg) 100)
  let base := st.templateFragments
  let x := xsInit (jsOr (some st.meta.seedBase) 4000)
  preGenLoop base (n.toNat - st.templateFragments.length) x st.templateFragments

/-- Capacity of the dedupe LRU: `makeLRU(opts.dedupeLRU || 4096)` with
`cap = Math.max(32, Number(cap) || 4096)`. -/
def lruCap (opts : GenOpts) : Nat := max 32 (jsOr opts.dedupeLRU 4096).toNat

/-- `push(k)` of the LRU made by `makeLRU`: re-inserting moves the key to
the back; on overflow the first-inserted key is dropped.  The insertion
order of the source Map is the list order. -/
def lruPush (cap : Nat) (l : List Nat) (k : Nat) : List Nat :=
  let l1 := if l.contains k then l.erase k else l
  let l2 := l1 ++ [k]
  if l2.length > cap then l2.tail else l2

/-- The content hash pushed to the LRU for a generated message:
`contentHash((m.text || '').slice(0, 240))`. -/
def msgHash (m : Msg) : Nat := contentHash (m.text.take 240)

/-- The generation loop of `generatePool` (indices `i` to `size - 1`,
recursing on the remaining count).  When the freshly generated hash is
already in the LRU the source enters the dedupe retry: it first evaluates
`_generateMessageForIndex(i + attempts + 1, {...seedBase + attempts + 1...})`
and then, `attempts = 0` being even, appends
`' ' + pickFrom(EMOJI, xorshift32(seedBase + attempts + i))`, which throws
on the undefined identifier `pickFrom`.  So every entered retry throws. -/
def genLoop (msgOpts retryOpts : GenOpts) (st : MPState) (env : MPEnv) (now : Int)
    (cap : Nat) : Nat → Nat → List Nat → List Msg → Except JsErr (List Msg)
  | _, 0, _, arr => .ok arr
  | i, r + 1, lru, arr =>
    match _generateMessageForIndex i msgOpts st env now with
    | .error e => .error e
    | .ok m =>
      let h := msgHash m
      if lru.contains h then
        match _generateMessageForIndex (i + 1) retryOpts st env now with
        | .error e => .error e
        | .ok _ => .error .pickFromUndefined
      else
        genLoop msgOpts retryOpts st env now cap (i + 1) r (lruPush cap lru h) (arr ++ [m])

/-- Stable insertion of a message into a list sorted ascending by `time`;
together with `sortByTime` this models the stable JS
`arr.sort((a,b) => a.time - b.time)`. -/
def insertByTime (m : Msg) : List Msg → List Msg
  | [] => [m]
  | y :: rest => if m.time < y.time then m :: y :: rest else y :: insertByTime m rest

/-- Stable sort by timestamp (JS `Array.prototype.sort` is stable and the
comparator is a total preorder, so any stable sort computes the same
permutation). -/
def sortByTime (l : List Msg) : List Msg := l.foldl (fun acc m => insertByTime m acc) []

/-- The strict-monotonicity pass after sorting, from the first element
with running predecessor time `prev`:
`if(arr[i].time <= arr[i-1].time) arr[i].time = arr[i-1].time + 1000`. -/
def bumpFrom (prev : Int) : List Msg → List Msg
  | [] => []
  | m :: rest =>
    let t := if m.time ≤ prev then prev + 1000 else m.time
    { m with time := t } :: bumpFrom t rest

/-- The whole monotonicity pass (the element at index 0 is untouched). -/
def jsBump : List Msg → List Msg
  | [] => []
  | m :: rest => m :: bumpFrom m.time rest

/-- The setup phase of `generatePool(opts)` (source lines before the
generation loop): the clamped size, the resolved seed, the LRU capacity,
the updated singleton state with its installed or expanded template
fragments, and the two per-index option bags used by the loop. -/
structure Setup where
  size : Nat
  cap : Nat
  st2 : MPState
  msgOpts : GenOpts
  retryOpts : GenOpts
deriving Repr, DecidableEq

/-- Setup phase of `generatePool(opts)`: clamp the size, fix the seed,
install the caller templates or expand the fragment pool to 200, build
the per-index option bags of the loop body (line 238) and of the dedupe
retry (line 244). -/
def genSetup (opts : GenOpts) (st : MPState) : Setup :=
  let size := (jsClamp (jsOr opts.size (jsOr (some st.meta.size) 1000)) 10 200000).toNat
  let seedBase := jsOr opts.seedBase (jsOr (some st.meta.seedBase) 4000)
  let st1 : MPState :=
    { st with meta := { st.meta with size := (size : Int), seedBase := seedBase } }
  let st2 : MPState :=
    match opts.templates with
    | some ts => { st1 with templateFragments := ts }
    | none =>
      if st1.templateFragments.length < 200 then
        { st1 with templateFragments :=
            preGenerateTemplates st1 (max 200 (st1.templateFragments.length : Int)) }
      else st1
  { size := size
    cap := lruCap opts
    st2 := st2
    msgOpts :=
      { size := some (size : Int), seedBase := some seedBase,
        startTimestamp := opts.startTimestamp, endTimestamp := opts.endTimestamp,
        spanDays := opts.spanDays, jitterMs := opts.jitterMs,
        templates := some st2.templateFragments,
        replyFraction := opts.replyFraction, attachmentFraction := opts.attachmentFraction }
    retryOpts :=
      { size := some (size : Int), seedBase := some (seedBase + 1),
        startTimestamp := opts.startTimestamp, endTimestamp := opts.endTimestamp,
        jitterMs := opts.jitterMs, templates := some st2.templateFragments } }

/-- The generation loop of `generatePool(opts)` run from a setup. -/
def genFromSetup (s : Setup) (env : MPEnv) (now : Int) :
    Except JsErr (List Msg × MPState × Nat) :=
  match genLoop s.msgOpts s.retryOpts s.st2 env now s.cap 0 s.size [] [] with
  | .error e => .error e
  | .ok arr => .ok (arr, s.st2, s.cap)

/-- First phase of `generatePool(opts)`: setup followed by the generation
loop with the dedupe LRU.  Returns the raw (unsorted) array, the updated
state and the LRU capacity. -/
def generateArr (opts : GenOpts) (st : MPState) (env : MPEnv) (now : Int) :
    Except JsErr (List Msg × MPState × Nat) :=
  genFromSetup (genSetup opts st) env now

/-- `generatePool(opts)`: generation loop, chronological sort, strict
monotonicity pass, store into `this.messages`.  Returns the stored array
and the updated singleton state. -/
def generatePool (opts : GenOpts) (st : MPState) (env : MPEnv) (now : Int) :
    Except JsErr (List Msg × MPState) :=
  match generateArr opts st env now with
  | .error e => .error e
  | .ok (arr, st2, _) =>
    let bumped := jsBump (sortByTime arr)
    .ok (bumped, { st2 with messages := bumped })

/-- `getRange(start, count)`: clamped slice of the materialized pool. -/
def getRange (st : MPState) (start count : Nat) : List Msg :=
  if st.messages.isEmpty then []
  else (st.messages.drop start).take (min st.messages.length (start + count) - start)

/-- Page loop of the on-demand generator view: `pageSize` calls of the
per-index generator starting at `start`. -/
def viewPageLoop (vopts : GenOpts) (st : MPState) (env : MPEnv) (now : Int) :
    Nat → Nat → List Msg → Except JsErr (List Msg)
  | _, 0, acc => .ok acc
  | idx, r + 1, acc =>
    match _generateMessageForIndex idx vopts st env now with
    | .error e => .error e
    | .ok m => viewPageLoop vopts st env now (idx + 1) r (acc ++ [m])

/-- The per-index options the on-demand view passes to the generator:
`{ size: opts.size || self.meta.size, seedBase: opts.seedBase ||
self.meta.seedBase, startTimestamp, endTimestamp, spanDays, jitterMs,
templates: self.templateFragments }`. -/
def viewGenOpts (vopts : GenOpts) (st : MPState) : GenOpts :=
  { size := some (jsOr vopts.size st.meta.size),
    seedBase := some (jsOr vopts.seedBase st.meta.seedBase),
    startTimestamp := vopts.startTimestamp, endTimestamp := vopts.endTimestamp,
    spanDays := vopts.spanDays, jitterMs := vopts.jitterMs,
    templates := some st.templateFragments }

/-- `createGeneratorView(opts).nextPage(start)`: when the pool is
materialized, a clamped `getRange` slice; otherwise `pageSize` on-demand
generations followed by the page-local `sort by time`. -/
def createGeneratorView_nextPage (vopts : GenOpts) (st : MPState) (env : MPEnv)
    (now : Int) (start : Nat) : Except JsErr (List Msg) :=
  let pageSize := (max 10 (jsOr vopts.pageSize 200)).toNat
  if !st.messages.isEmpty then
    .ok (getRange st start pageSize)
  else
    match viewPageLoop (viewGenOpts vopts st) st env now start pageSize [] with
    | .error e => .error e
    | .ok arr => .ok (sortByTime arr)

/-- The fresh MessagePool singleton state as created by the IIFE:
empty pool, default meta, default fragments. -/
def freshState : MPState :=
  { messages := []
    meta := { size := 1000, seedBase := 4000, spanDays := 365,
              replyFraction := ⟨3, 100⟩, attachmentFraction := ⟨4, 100⟩ }
    templateFragments := DEFAULT_PHRASES }

/-- The empty window environment (no population loaded). -/
def emptyEnv : MPEnv := { sampleMembers := [], people := [] }

end MessagePool

/-- The window-distinctness property of a sequence of content hashes in
generation order: no two hashes at distance at most `cap` coincide. -/
def hashWindowOk (cap : Nat) (hs : List Nat) : Prop :=
  ∀ (i j : Nat) (hij : i < j) (hj : j < hs.length), j - i ≤ cap →
    hs.get ⟨i, lt_trans hij hj⟩ ≠ hs.get ⟨j, hj⟩

/-- Twelve short distinct ASCII templates (t00 .. t11) used as the
explicit `templates` option of a concrete successful generation run. -/
def c2Templates : List Ustr :=
  (List.range 12).map (fun k => [116] ++ natToUnits (k / 10) ++ natToUnits (k % 10))

/-- A concrete successful `generatePool` run: size 10, seed 15, explicit
templates, empty environment, fixed clock. -/
def c2Run : Except JsErr (List MessagePool.Msg × MessagePool.MPState) :=
  MessagePool.generatePool { size := some 10, seedBase := some 15, templates := some c2Templates }
    MessagePool.freshState MessagePool.emptyEnv 1760000000000

/-- The message array of the run `c2Run`. -/
def c2Msgs : List MessagePool.Msg :=
  match c2Run with
  | .ok (msgs, _) => msgs
  | .error _ => []

/-- The updated singleton state of the run `c2Run`. -/
def c2St : MessagePool.MPState :=
  match c2Run with
  | .ok (_, st) => st
  | .error _ => MessagePool.freshState

/-- Forty short distinct ASCII templates (t00 .. t39) used as the
explicit `templates` option of a concrete successful generation run. -/
def c5Templates : List Ustr :=
  (List.range 40).map (fun k => [116] ++ natToUnits (k / 10) ++ natToUnits (k % 10))

/-- A concrete successful raw generation run whose pool size 33 exceeds
its dedupe LRU capacity 32: seed 147, explicit templates, empty
environment, fixed clock. -/
def c5Run : Except JsErr (List MessagePool.Msg × MessagePool.MPState × Nat) :=
  MessagePool.generateArr
    { size := some 33, seedBase := some 147, templates := some c5Templates,
      dedupeLRU := some 32 }
    MessagePool.freshState MessagePool.emptyEnv 1760000000000

/-- The raw message array of the run `c5Run`. -/
def c5Arr : List MessagePool.Msg :=
  match c5Run with
  | .ok (arr, _, _) => arr
  | .error _ => []

/-- The updated singleton state of the run `c5Run`. -/
def c5St : MessagePool.MPState :=
  match c5Run with
  | .ok (_, st, _) => st
  | .error _ => MessagePool.freshState

/-- The LRU capacity of the run `c5Run`. -/
def c5Cap : Nat :=
  match c5Run with
  | .ok (_, _, cap) => cap
  | .error _ => 0

/-- The 200 template fragments that `preGenerateTemplates` computes for
the C1 scenario state (seed 4000), written as plain strings: the 15
default phrases followed by 185 seeded recombinations.  Precomputed so
the later evaluation can unfold a literal instead of re-running the
expansion loop; `strUnits` turns each into its UTF-16 code units. -/
def c1TemplateStrs : List String := [
  "Anyone watching the market?",
  "I\u0027ll wait for the retracement.",
  "Bought more on the dip 🚀",
  "Stop loss set.",
  "TP hit, taking profit.",
  "Can someone share the signal?",
  "Nice call on that last trade.",
  "That candle was wild 😅",
  "Holding long, strong fundamentals.",
  "What level are you watching?",
  "See you in the green.",
  "Avoid FOMO, set a plan.",
  "News just popped — check it out.",
  "Looking for entry around here.",
  "Testing strategy — ignore my trades.",
  "Stop loss set. — Testing strategy — ignore my trades.",
  "Looking for entry around here. News just popped — check it out.",
  "TP hit, taking profit. — Can someone share the signal?",
  "That candle was wild 😅 — Looking for entry around here.",
  "Anyone watching the market? — TP hit, taking profit.",
  "Looking for entry around here. — What level are you watching?",
  "Testing strategy — ignore my trades. — See you in the green.",
  "News just popped — check it out. Avoid FOMO, set a plan.",
  "TP hit, taking profit. Anyone watching the market?",
  "Can someone share the signal? See you in the green.",
  "Testing strategy — ignore my trades. — Stop loss set.",
  "TP hit, taking profit. See you in the green.",
  "Avoid FOMO, set a plan. — Holding long, strong fundamentals.",
  "Looking for entry around here. That candle was wild 😅",
  "Stop loss set. TP hit, taking profit.",
  "See you in the green. That candle was wild 😅",
  "That candle was wild 😅 TP hit, taking profit.",
  "Testing strategy — ignore my trades. TP hit, taking profit.",
  "Looking for entry around here. Bought more on the dip 🚀",
  "That candle was wild 😅 Anyone watching the market?",
  "News just popped — check it out. Testing strategy — ignore my trades.",
  "That candle was wild 😅 Can someone share the signal?",
  "Nice call on that last trade. Testing strategy — ignore my trades.",
  "Holding long, strong fundamentals. — Looking for entry around here.",
  "That candle was wild 😅 — Anyone watching the market?",
  "Can someone share the signal? — TP hit, taking profit.",
  "That candle was wild 😅 — Can someone share the signal?",
  "Testing strategy — ignore my trades. — That candle was wild 😅",
  "Nice call on that last trade. TP hit, taking profit.",
  "Testing strategy — ignore my trades. Nice call on that last trade.",
  "Testing strategy — ignore my trades. That candle was wild 😅",
  "Bought more on the dip 🚀 Holding long, strong fundamentals.",
  "Stop loss set. Anyone watching the market?",
  "Anyone watching the market? TP hit, taking profit.",
  "Holding long, strong fundamentals. News just popped — check it out.",
  "News just popped — check it out. — News just popped — check it out.",
  "Anyone watching the market? — I\u0027ll wait for the retracement.",
  "I\u0027ll wait for the retracement. Anyone watching the market?",
  "Anyone watching the market? Testing strategy — ignore my trades.",
  "Holding long, strong fundamentals. — That candle was wild 😅",
  "Avoid FOMO, set a plan. Stop loss set.",
  "Holding long, strong fundamentals. — Holding long, strong fundamentals.",
  "TP hit, taking profit. — Bought more on the dip 🚀",
  "Testing strategy — ignore my trades. I\u0027ll wait for the retracement.",
  "I\u0027ll wait for the retracement. — That candle was wild 😅",
  "Stop loss set. That candle was wild 😅",
  "See you in the green. — TP hit, taking profit.",
  "Stop loss set. — TP hit, taking profit.",
  "Holding long, strong fundamentals. Anyone watching the market?",
  "Testing strategy — ignore my trades. — Nice call on that last trade.",
  "Avoid FOMO, set a plan. — Can someone share the signal?",
  "Nice call on that last trade. Can someone share the signal?",
  "Bought more on the dip 🚀 Testing strategy — ignore my trades.",
  "Holding long, strong fundamentals. — What level are you watching?",
  "That candle was wild 😅 — TP hit, taking profit.",
  "That candle was wild 😅 Holding long, strong fundamentals.",
  "Anyone watching the market? News just popped — check it out.",
  "TP hit, taking profit. — Nice call on that last trade.",
  "News just popped — check it out. Looking for entry around here.",
  "Can someone share the signal? — Can someone share the signal?",
  "News just popped — check it out. — Nice call on that last trade.",
  "I\u0027ll wait for the retracement. — What level are you watching?",
  "TP hit, taking profit. Nice call on that last trade.",
  "Holding long, strong fundamentals. I\u0027ll wait for the retracement.",
  "Can someone share the signal? — News just popped — check it out.",
  "Looking for entry around here. — TP hit, taking profit.",
  "Nice call on that last trade. Can someone share the signal?",
  "Avoid FOMO, set a plan. — TP hit, taking profit.",
  "Looking for entry around here. Holding long, strong fundamentals.",
  "Testing strategy — ignore my trades. — Anyone watching the market?",
  "Testing strategy — ignore my trades. Holding long, strong fundamentals.",
  "News just popped — check it out. — Stop loss set.",
  "What level are you watching? See you in the green.",
  "TP hit, taking profit. — Anyone watching the market?",
  "Looking for entry around here. That candle was wild 😅",
  "Can someone share the signal? That candle was wild 😅",
  "TP hit, taking profit. Stop loss set.",
  "See you in the green. — TP hit, taking profit.",
  "See you in the green. That candle was wild 😅",
  "Avoid FOMO, set a plan. — Looking for entry around here.",
  "Nice call on that last trade. — That candle was wild 😅",
  "Bought more on the dip 🚀 — See you in the green.",
  "Testing strategy — ignore my trades. Stop loss set.",
  "See you in the green. — Can someone share the signal?",
  "I\u0027ll wait for the retracement. Avoid FOMO, set a plan.",
  "Avoid FOMO, set a plan. — Looking for entry around here.",
  "Testing strategy — ignore my trades. Bought more on the dip 🚀",
  "Avoid FOMO, set a plan. What level are you watching?",
  "News just popped — check it out. — What level are you watching?",
  "Holding long, strong fundamentals. — See you in the green.",
  "Bought more on the dip 🚀 Can someone share the signal?",
  "That candle was wild 😅 Anyone watching the market?",
  "Stop loss set. — Stop loss set.",
  "Nice call on that last trade. News just popped — check it out.",
  "Holding long, strong fundamentals. Stop loss set.",
  "Anyone watching the market? — Holding long, strong fundamentals.",
  "News just popped — check it out. — Looking for entry around here.",
  "I\u0027ll wait for the retracement. — Nice call on that last trade.",
  "See you in the green. Stop loss set.",
  "News just popped — check it out. I\u0027ll wait for the retracement.",
  "News just popped — check it out. What level are you watching?",
  "TP hit, taking profit. — I\u0027ll wait for the retracement.",
  "I\u0027ll wait for the retracement. — Anyone watching the market?",
  "Anyone watching the market? — Nice call on that last trade.",
  "Nice call on that last trade. — Stop loss set.",
  "News just popped — check it out. — That candle was wild 😅",
  "Testing strategy — ignore my trades. — See you in the green.",
  "What level are you watching? — Nice call on that last trade.",
  "Looking for entry around here. I\u0027ll wait for the retracement.",
  "Stop loss set. Testing strategy — ignore my trades.",
  "Looking for entry around here. Looking for entry around here.",
  "Testing strategy — ignore my trades. News just popped — check it out.",
  "TP hit, taking profit. — See you in the green.",
  "Can someone share the signal? Looking for entry around here.",
  "Stop loss set. — Bought more on the dip 🚀",
  "What level are you watching? Looking for entry around here.",
  "I\u0027ll wait for the retracement. — Bought more on the dip 🚀",
  "That candle was wild 😅 Testing strategy — ignore my trades.",
  "News just popped — check it out. What level are you watching?",
  "News just popped — check it out. Nice call on that last trade.",
  "I\u0027ll wait for the retracement. Anyone watching the market?",
  "Bought more on the dip 🚀 Bought more on the dip 🚀",
  "I\u0027ll wait for the retracement. — Looking for entry around here.",
  "News just popped — check it out. — What level are you watching?",
  "Stop loss set. — I\u0027ll wait for the retracement.",
  "Testing strategy — ignore my trades. That candle was wild 😅",
  "Testing strategy — ignore my trades. — Stop loss set.",
  "TP hit, taking profit. — I\u0027ll wait for the retracement.",
  "TP hit, taking profit. News just popped — check it out.",
  "Stop loss set. — Bought more on the dip 🚀",
  "Can someone share the signal? — Bought more on the dip 🚀",
  "Bought more on the dip 🚀 Can someone share the signal?",
  "Avoid FOMO, set a plan. See you in the green.",
  "Holding long, strong fundamentals. — News just popped — check it out.",
  "Bought more on the dip 🚀 — Avoid FOMO, set a plan.",
  "Anyone watching the market? Looking for entry around here.",
  "Stop loss set. — That candle was wild 😅",
  "Stop loss set. Nice call on that last trade.",
  "What level are you watching? Stop loss set.",
  "Testing strategy — ignore my trades. Anyone watching the market?",
  "Stop loss set. Looking for entry around here.",
  "What level are you watching? — I\u0027ll wait for the retracement.",
  "Anyone watching the market? I\u0027ll wait for the retracement.",
  "TP hit, taking profit. — Anyone watching the market?",
  "Stop loss set. — Testing strategy — ignore my trades.",
  "Holding long, strong fundamentals. — Avoid FOMO, set a plan.",
  "Testing strategy — ignore my trades. Nice call on that last trade.",
  "Bought more on the dip 🚀 — Avoid FOMO, set a plan.",
  "Stop loss set. See you in the green.",
  "Bought more on the dip 🚀 See you in the green.",
  "I\u0027ll wait for the retracement. I\u0027ll wait for the retracement.",
  "Bought more on the dip 🚀 — See you in the green.",
  "Stop loss set. — TP hit, taking profit.",
  "I\u0027ll wait for the retracement. TP hit, taking profit.",
  "Can someone share the signal? — Stop loss set.",
  "What level are you watching? — Looking for entry around here.",
  "Stop loss set. — News just popped — check it out.",
  "News just popped — check it out. Avoid FOMO, set a plan.",
  "See you in the green. — Testing strategy — ignore my trades.",
  "TP hit, taking profit. See you in the green.",
  "News just popped — check it out. Avoid FOMO, set a plan.",
  "What level are you watching? — What level are you watching?",
  "See you in the green. Stop loss set.",
  "Can someone share the signal? — News just popped — check it out.",
  "Stop loss set. — Holding long, strong fundamentals.",
  "TP hit, taking profit. See you in the green.",
  "Nice call on that last trade. I\u0027ll wait for the retracement.",
  "TP hit, taking profit. Stop loss set.",
  "Bought more on the dip 🚀 Anyone watching the market?",
  "TP hit, taking profit. — News just popped — check it out.",
  "Avoid FOMO, set a plan. — I\u0027ll wait for the retracement.",
  "Can someone share the signal? — I\u0027ll wait for the retracement.",
  "Bought more on the dip 🚀 — What level are you watching?",
  "Stop loss set. — Avoid FOMO, set a plan.",
  "Bought more on the dip 🚀 — See you in the green.",
  "See you in the green. Avoid FOMO, set a plan.",
  "Looking for entry around here. Nice call on that last trade.",
  "What level are you watching? — That candle was wild 😅",
  "Can someone share the signal? Can someone share the signal?",
  "That candle was wild 😅 — I\u0027ll wait for the retracement.",
  "Avoid FOMO, set a plan. — Holding long, strong fundamentals.",
  "Holding long, strong fundamentals. — I\u0027ll wait for the retracement.",
  "TP hit, taking profit. — Bought more on the dip 🚀",
  "What level are you watching? — That candle was wild 😅",
  "Bought more on the dip 🚀 — News just popped — check it out."
]

/-- The template fragments of the C1 scenario as code-unit lists. -/
def c1ExpandedTemplates : List Ustr := c1TemplateStrs.map strUnits

/-- The options of the C1 scenario:
`generatePool({size:100, seedBase:4000, spanDays:1})`. -/
def c1Opts : MessagePool.GenOpts :=
  { size := some 100, seedBase := some 4000, spanDays := some 1 }

/-- The setup that `genSetup` computes for the C1 scenario, with the
expanded template literal in place of the expansion call. -/
def c1Setup : MessagePool.Setup :=
  { size := 100
    cap := 4096
    st2 := { messages := []
             meta := { size := 100, seedBase := 4000, spanDays := 365,
                       replyFraction := ⟨3, 100⟩, attachmentFraction := ⟨4, 100⟩ }
             templateFragments := c1ExpandedTemplates }
    msgOpts := { size := some 100, seedBase := some 4000, spanDays := some 1,
                 templates := some c1ExpandedTemplates }
    retryOpts := { size := some 100, seedBase := some 4001,
                   templates := some c1ExpandedTemplates } }

namespace SyntheticPeople

/-- Pick `arr[Math.floor(rnd()*arr.length)]` consuming one draw (the
source `pickFrom` returns null only for an empty array; all arrays passed
here are nonempty constants). -/
def pickFromU (arr : List Ustr) (x : Nat) : Ustr × Nat :=
  let x1 := xsStep x
  (arr.getD (jsFloorMul x1 arr.length) [], x1)

/-- JS `toLowerCase` per code unit for the alphabet appearing in the name
constants (ASCII plus the Latin-1 uppercase range; the special cases
U+00DF and U+00FF do not occur in the constants). -/
def unitToLower (c : Nat) : Nat :=
  if 65 ≤ c ∧ c ≤ 90 then c + 32
  else if 192 ≤ c ∧ c ≤ 222 ∧ c ≠ 215 then c + 32
  else c

/-- JS `toUpperCase` per code unit for the same alphabet. -/
def unitToUpper (c : Nat) : Nat :=
  if 97 ≤ c ∧ c ≤ 122 then c - 32
  else if 224 ≤ c ∧ c ≤ 254 ∧ c ≠ 247 then c - 32
  else c

/-- JS `String.replace` with a one-character string pattern: replace the
first occurrence only. -/
def replaceFirstUnit (pat : Nat) (rep : Ustr) : Ustr → Ustr
  | [] => []
  | c :: rest => if c = pat then rep ++ rest else c :: replaceFirstUnit pat rep rest

/-- The nondeterministic environment of synthetic-people.js:
`Math.random()` draws (used by the nickname branch of `makeDisplayName`
and by `uid`), `Date.now()`, and `makeAvatar` — the latter reads and
mutates the process-wide avatar registry and, on some branches,
`Date.now()`/`Math.random()`, so it is modelled as an oracle of the
display name and index; its output feeds no other computation.  Oracle
calls are indexed by a running counter. -/
structure SPOracle where
  mathRandomBit : Nat → Bool
  uid : Nat → Ustr
  avatar : Ustr → Nat → Ustr
  now : Nat → Int

/-- One participant record of the generated pool. -/
structure Participant where
  pid : Ustr
  pname : Ustr
  displayName : Ustr
  role : Role
  verified : Bool
  avatar : Ustr
  lastActive : Int
  country : Ustr
deriving Repr, DecidableEq, Inhabited

/-- The module meta state (`this.meta`); `size` is a JS number, kept as an
exact fraction. -/
structure SPMeta where
  size : Frac
  seedBase : Int
deriving Repr, DecidableEq

/-- Options accepted by `SyntheticPeople.generatePool` (`uniqueAvatars`
and `preferPhotos` only influence `makeAvatar`, which is oracle-modelled,
so they are omitted from the record). -/
structure SPOpts where
  size : Option Frac := none
  seedBase : Option Int := none
deriving Repr, DecidableEq

/-- `makeDisplayName(rnd)` of synthetic-people.js: seeded first/last pick,
probabilistic casing / truncation / emoji / typo / country-flag
transforms, in source order.  Returns the name, the advanced rnd state
and the advanced oracle counter (the nickname branch consults
`Math.random()`). -/
def makeDisplayName (or : SPOracle) (x0 : Nat) (k0 : Nat) : Ustr × Nat × Nat :=
  let fp := pickFromU FIRSTS x0
  let fx : Ustr × Nat :=
    if fp.1 = [] then
      let x := xsStep fp.2
      ([85, 115, 101, 114] ++ natToUnits (jsFloorMul x 999), x)
    else fp
  let lp := pickFromU LASTS fx.2
  let lx : Ustr × Nat :=
    if lp.1 = [] then
      let x := xsStep lp.2
      ([77, 101, 109, 98, 101, 114] ++ natToUnits (jsFloorMul x 999), x)
    else lp
  let first := fx.1
  let last := lx.1
  let name0 := first ++ [32] ++ last
  let xp := xsStep lx.2
  let nk : Ustr × Nat × Nat :=
    if jsLt xp 6 100 then (name0.map unitToLower, xp, k0)
    else if jsLt xp 12 100 then (name0.map unitToUpper, xp, k0)
    else if jsLt xp 25 100 then
      let x1 := xsStep xp
      if jsLt x1 15 100 then
        if or.mathRandomBit k0 then
          (first ++ [32] ++ (match last with | [] => [] | c :: _ => [c]) ++ [46], x1, k0 + 1)
        else
          let x2 := xsStep x1
          (first ++ [32, 35] ++ natToUnits (jsFloorMul x2 99 + 1), x2, k0 + 1)
      else (first, x1, k0)
    else (name0, xp, k0)
  let x3 := xsStep nk.2.1
  let ek : Ustr × Nat :=
    if jsLt x3 12 100 then
      let ep := pickFromU SP_EMOJI x3
      let x4 := xsStep ep.2
      (if jsLt x4 1 2 then ep.1 ++ [32] ++ nk.1 else nk.1 ++ [32] ++ ep.1, x4)
    else (nk.1, x3)
  let x5 := xsStep ek.2
  let tk : Ustr × Nat :=
    if jsLt x5 7 100 then
      let x6 := xsStep x5
      (if jsLt x6 1 2 then replaceFirstUnit 32 [32, 32] ek.1
       else replaceFirstUnit 97 [64] ek.1, x6)
    else (ek.1, x5)
  let x7 := xsStep tk.2
  let ck : Ustr × Nat :=
    if jsLt x7 5 100 then
      let cp := pickFromU FLAG_CC x7
      (tk.1 ++ [32] ++ cp.1, cp.2)
    else (tk.1, x7)
  (ck.1, ck.2, nk.2.2)

/-- Is a code unit a word character of the regex class
`[\w\-\u0080-￿]` used for the canonical `name` field. -/
def isNameUnit (c : Nat) : Bool :=
  (48 ≤ c && c ≤ 57) || (65 ≤ c && c ≤ 90) || (97 ≤ c && c ≤ 122) ||
    c == 95 || c == 45 || (128 ≤ c && c ≤ 65535)

/-- Collapse each maximal run of whitespace to one underscore
(`replace(/\s+/g, '_')`; the only whitespace unit in the generated names
is the space); the flag records whether the previous unit was whitespace. -/
def collapseWsAux : Bool → Ustr → Ustr
  | _, [] => []
  | prevWs, c :: rest =>
    if c = 32 then
      if prevWs then collapseWsAux true rest
      else 95 :: collapseWsAux true rest
    else c :: collapseWsAux false rest

/-- The whitespace-run replacement applied to a whole name. -/
def collapseWs (s : Ustr) : Ustr := collapseWsAux false s

/-- The canonical `name` field:
`displayName.replace(/\s+/g,'_').replace(/[^\w\-\u0080-￿]/g,'').slice(0,32)`. -/
def canonName (dn : Ustr) : Ustr :=
  ((collapseWs dn).filter isNameUnit).take 32

/-- Floor of `rnd() * size` for a fractional pool size
(`Math.floor(rnd() * size)` in the admin/mod index sampling). -/
def floorMulF (x : Nat) (f : Frac) : Int :=
  ((x : Int) * f.num).fdiv (f.den * 4294967296)

/-- JS `Set.add` keyed by number: append if absent. -/
def jsSetAdd (l : List Int) (v : Int) : List Int :=
  if l.contains v then l else l ++ [v]

/-- The admin/mod index sampling loops:
`for(let i=0;i<count;i++){ set.add(Math.floor(rnd()*size)); }`. -/
def sampleIndices (size : Frac) : Nat → Nat → List Int → List Int × Nat
  | 0, x, acc => (acc, x)
  | c + 1, x, acc =>
    let x1 := xsStep x
    sampleIndices size c x1 (jsSetAdd acc (floorMulF x1 size))

/-- One iteration of the participant loop (source lines 240-262), in
evaluation order: display name, role, verified flag, avatar,
`lastActive`, country, then the object literal with its `uid` call.
Returns the participant and the advanced oracle counter. -/
def genParticipant (or : SPOracle) (seedBase : Int) (adminSet modSet : List Int)
    (i : Nat) (k : Nat) : Participant × Nat :=
  let x0 := xsInit (seedBase + (i : Int) * 137)
  let dk := makeDisplayName or x0 k
  let displayName := dk.1
  let rx : Role × Nat :=
    if adminSet.contains (i : Int) then (.ADMIN, dk.2.1)
    else if modSet.contains (i : Int) then (.MOD, dk.2.1)
    else
      let x := xsStep dk.2.1
      if jsLt x 1 100 then (.MOD, x) else (.VERIFIED, x)
  let role := rx.1
  let verified : Bool :=
    role == .VERIFIED || role == .YOU || role == .ADMIN || role == .MOD
  let k1 := dk.2.2
  let avatar := or.avatar displayName i
  let x2 := xsStep rx.2
  let lastActive := or.now k1 - jsRoundDiv ((x2 : Int) * 172800000) 4294967296
  let x3 := xsStep x2
  let country := COUNTRY_HINTS.getD (jsFloorMul x3 COUNTRY_HINTS.length) []
  ({ pid := or.uid (k1 + 1)
     pname := canonName displayName
     displayName := displayName
     role := role
     verified := verified
     avatar := avatar
     lastActive := lastActive
     country := country }, k1 + 2)

/-- The participant loop, one record per index. -/
def spLoop (or : SPOracle) (seedBase : Int) (adminSet modSet : List Int) :
    Nat → Nat → Nat → List Participant
  | 0, _, _ => []
  | fuel + 1, i, k =>
    let pk := genParticipant or seedBase adminSet modSet i k
    pk.1 :: spLoop or seedBase adminSet modSet fuel (i + 1) pk.2

/-- `SyntheticPeople.generatePool(opts)`: clamp the size into [10, 20000]
(never rejecting), resolve the seed, sample `max(1, round(size*0.004))`
admin indices and `max(1, round(size*0.03))` mod indices with possible
collisions, then build the participants. -/
def generatePool (opts : SPOpts) (meta : SPMeta) (or : SPOracle) : List Participant :=
  let size := jsClampF (jsOrF opts.size (jsOrF (some meta.size) (Frac.ofInt 1000))) 10 20000
  let seedBase := jsOr opts.seedBase (jsOr (some meta.seedBase) 2026)
  let adminCount := (max 1 (jsRoundDiv (size.num * 4) (size.den * 1000))).toNat
  let modCount := (max 1 (jsRoundDiv (size.num * 3) (size.den * 100))).toNat
  let x0 := xsInit seedBase
  let ap := sampleIndices size adminCount x0 []
  let mp := sampleIndices size modCount ap.2 []
  spLoop or seedBase ap.1 mp.1 size.ceil.toNat 0 0

/-- The fresh module meta: `{ size: 1000, seedBase: 2026 }`. -/
def freshMeta : SPMeta := { size := Frac.ofInt 1000, seedBase := 2026 }

end SyntheticPeople

/-- A concrete trivial oracle for witness instantiations. -/
def spOracle0 : SyntheticPeople.SPOracle :=
  { mathRandomBit := fun _ => false
    uid := fun _ => []
    avatar := fun _ _ => []
    now := fun _ => 0 }

namespace PresenceManager

/-- Configuration options of the presence manager (`state.opts`); only
`configure()` ever writes them, so the presence computations below take
them as a read-only parameter. -/
structure PMOpts where
  baselineOnline : Int
  minOnline : Int
  maxOnline : Int
  tickMs : Int
  nudgePercent : Frac
  simulateStepPercent : Frac
  jitterMs : Int
deriving Repr, DecidableEq

/-- The DEFAULTS object of presence-manager. -/
def DEFAULTS : PMOpts :=
  { baselineOnline := 76, minOnline := 60, maxOnline := 250, tickMs := 15000,
    nudgePercent := ⟨2, 100⟩, simulateStepPercent := ⟨1, 100⟩, jitterMs := 90000 }

/-- The mutable data a presence computation touches: the member list
(each member reduced to its `lastActive` timestamp, the only field
presence reads or writes), the draw stream with its cursor (raw 32-bit
states; `Math.random` runs correspond to arbitrary streams, seeded runs
to the xorshift32 stream), and the `Date.now()` stream with its cursor. -/
structure PMRun where
  members : List Int
  rnd : Nat → Nat
  rndIdx : Nat
  clock : Nat → Int
  clockIdx : Nat

/-- One draw from the stream. -/
def draw (s : PMRun) : Nat × PMRun :=
  (s.rnd s.rndIdx, { s with rndIdx := s.rndIdx + 1 })

/-- One `Date.now()` call. -/
def nowCall (s : PMRun) : Int × PMRun :=
  (s.clock s.clockIdx, { s with clockIdx := s.clockIdx + 1 })

/-- `computeRealOnline(list)`: count members with
`now - lastActive < jitterMs` (one `Date.now()` call; none when the list
is empty). -/
def computeRealOnline (o : PMOpts) (s : PMRun) : Nat × PMRun :=
  if s.members.isEmpty then (0, s)
  else
    let ns := nowCall s
    ((s.members.filter (fun la => ns.1 - la < o.jitterMs)).length, ns.2)

/-- Body of the `while(chosen.size < toNudge && attempts < toNudge*8)`
loop of `nudgeToBaseline`: draw an index, skip it if that member is
already online, otherwise freshen its `lastActive` and record the index;
`attempts` increments every iteration, so the remaining attempt budget is
the fuel. -/
def nudgeLoop (o : PMOpts) (toNudge : Nat) : Nat → PMRun → List Nat → List Nat × PMRun
  | 0, s, chosen => (chosen, s)
  | fuel + 1, s, chosen =>
    if chosen.length < toNudge then
      let ds := draw s
      let idx := jsFloorMul ds.1 ds.2.members.length
      let la := ds.2.members.getD idx 0
      let ns := nowCall ds.2
      if ns.1 - la < o.jitterMs then
        nudgeLoop o toNudge fuel ns.2 chosen
      else
        let ds2 := draw ns.2
        let ns2 := nowCall ds2.2
        let fresh := ns2.1 - ((48000 * (ds2.1 : Int)).fdiv 4294967296 + 6000)
        let s2 := { ns2.2 with members := ns2.2.members.set idx fresh }
        nudgeLoop o toNudge fuel s2 (if chosen.contains idx then chosen else chosen ++ [idx])
    else (chosen, s)

/-- `nudgeToBaseline(list, need)`: returns the number of distinct nudged
indices (`chosen.size`).  `Math.floor((rnd()*0.8 + 0.1) * 60 * 1000)`
equals `floor(rnd()*48000) + 6000` exactly. -/
def nudgeToBaseline (o : PMOpts) (s : PMRun) (need : Int) : Nat × PMRun :=
  if s.members.isEmpty || need ≤ 0 then (0, s)
  else
    let toNudge := (min need (max 1 (jsRoundDiv (o.nudgePercent.num * s.members.length)
      o.nudgePercent.den))).toNat
    let r := nudgeLoop o toNudge (toNudge * 8) s []
    (r.1.length, r.2)

/-- `computeVisibleOnline()`: real count, nudge towards the baseline when
below it, then clamp into `[minOnline, maxOnline]`. -/
def computeVisibleOnline (o : PMOpts) (s : PMRun) : Int × PMRun :=
  let rs := computeRealOnline o s
  let vs : Int × PMRun :=
    if (rs.1 : Int) < o.baselineOnline then
      let nd := nudgeToBaseline o rs.2 (o.baselineOnline - (rs.1 : Int))
      ((rs.1 : Int) + (nd.1 : Int), nd.2)
    else ((rs.1 : Int), rs.2)
  (jsClamp vs.1 o.minOnline o.maxOnline, vs.2)

/-- The online count written to the `#onlineCount` element by
`updateUICounts()` (assuming the element exists): the visible count plus
the organic jitter `Math.round((rnd() - 0.5) * 12)`, clamped again into
`[minOnline, maxOnline]`. -/
def displayedOnline (o : PMOpts) (s : PMRun) : Int × PMRun :=
  let vs := computeVisibleOnline o s
  let ds := draw vs.2
  let jitter := jsRoundDiv ((2 * (ds.1 : Int) - 4294967296) * 6) 4294967296
  (jsClamp (vs.1 + jitter) o.minOnline o.maxOnline, ds.2)

end PresenceManager

/-- The inverted configuration used by the C3 counterexample:
`minOnline 100` above `maxOnline 50`. -/
def pmBadOpts : PresenceManager.PMOpts :=
  { PresenceManager.DEFAULTS with minOnline := 100, maxOnline := 50 }

/-- An empty member list with constant zero draw and clock streams. -/
def pmRun0 : PresenceManager.PMRun :=
  { members := []
    rnd := fun _ => 0
    rndIdx := 0
    clock := fun _ => 0
    clockIdx := 0 }

namespace TypingEngine

/-- The configuration fields of typing-engine.js that `triggerTyping`
reads (`seedBase` only selects the RNG used by the member-sampling
branches, which are inert in the modeled environment where neither
`window.sampleMembers` nor `window.SyntheticPeople.people` is populated,
so it is omitted). -/
structure TECfg where
  minDurationMs : Int
  maxNames : Nat
  autoDurationPerNameMs : Int
  autoDurationMinMs : Int
  autoDurationMaxMs : Int
deriving Repr, DecidableEq

/-- The DEFAULTS object of typing-engine.js (sampling fields omitted). -/
def DEFAULTS : TECfg :=
  { minDurationMs := 300, maxNames := 6, autoDurationPerNameMs := 900,
    autoDurationMinMs := 700, autoDurationMaxMs := 6000 }

/-- The mutable closure state of the typing engine IIFE, plus an explicit
model of the host timer table: `pending` lists the ids of armed
`setTimeout` callbacks not yet fired or cancelled, and `nextId` is the
next fresh timer id the host would hand out.  `shownNames` is what the
typing UI currently displays (empty when cleared), `lastDur` the duration
passed to the most recent `setTimeout`. -/
structure TEState where
  cfg : TECfg
  active : Bool
  clearTimer : Option Nat
  shownNames : List Ustr
  lastDur : Option Int
  pending : List Nat
  nextId : Nat
deriving Repr, DecidableEq

/-- Engine state right after the IIFE runs: inactive, no timer armed. -/
def initTE (cfg : TECfg) : TEState :=
  { cfg := cfg, active := false, clearTimer := none, shownNames := [],
    lastDur := none, pending := [], nextId := 0 }

/-- The generic label used when no usable name is available. -/
def SOMEONE : Ustr := strUnits "Someone"

/-- Duration computation of `triggerTyping`: an explicit numeric duration
is floored at `minDurationMs`; otherwise `names.length *
autoDurationPerNameMs` (an exact integer, so `Math.round` is the
identity) clamped into `[autoDurationMinMs, autoDurationMaxMs]`.  A
non-numeric or NaN `durationMs` argument is modeled as `none`. -/
def computeDur (cfg : TECfg) (n : Nat) (dm : Option Int) : Int :=
  match dm with
  | some d => max cfg.minDurationMs d
  | none => jsClamp ((n : Int) * cfg.autoDurationPerNameMs)
      cfg.autoDurationMinMs cfg.autoDurationMaxMs

/-- `TypingEngine.triggerTyping(names, durationMs)` in an environment
with no sampleable member lists: filter falsy (empty) names, fall back to
the generic label, slice to `maxNames`, compute the duration, cancel the
previously armed clear timer if any (`clearTimeout`), mark active, show
the names, and arm a fresh clear timer with a fresh id. -/
def triggerTyping (names : List Ustr) (dm : Option Int) (s : TEState) : TEState :=
  let provided0 := names.filter (fun n => !n.isEmpty)
  let provided := if provided0.isEmpty then [SOMEONE] else provided0
  let shown := provided.take s.cfg.maxNames
  let dur := computeDur s.cfg shown.length dm
  let pending1 := match s.clearTimer with
    | some id => s.pending.filter (fun j => j != id)
    | none => s.pending
  { s with
    active := true
    shownNames := shown
    lastDur := some dur
    clearTimer := some s.nextId
    pending := pending1 ++ [s.nextId]
    nextId := s.nextId + 1 }

/-- The host fires timer `id`: only an armed (pending) id can fire; the
callback runs `clearTypingUI()` (deactivate, blank the UI) and clears the
`clearTimer` slot.  Firing a cancelled or never-armed id is a no-op. -/
def fireClear (id : Nat) (s : TEState) : TEState :=
  if s.pending.contains id then
    { s with
      active := false
      shownNames := []
      clearTimer := none
      pending := s.pending.filter (fun j => j != id) }
  else s

/-- `TypingEngine.clear()`: cancel the armed timer if any and clear the
UI. -/
def clear (s : TEState) : TEState :=
  let pending1 := match s.clearTimer with
    | some id => s.pending.filter (fun j => j != id)
    | none => s.pending
  { s with
    active := false
    shownNames := []
    clearTimer := none
    pending := pending1 }

/-- An event of a typing-engine execution: an API call or a timer
firing. -/
inductive TEOp where
  | trigger (names : List Ustr) (durationMs : Option Int)
  | fireClear (id : Nat)
  | clearOp
deriving Repr, DecidableEq

/-- One event. -/
def stepTE (op : TEOp) (s : TEState) : TEState :=
  match op with
  | .trigger names dm => triggerTyping names dm s
  | .fireClear id => fireClear id s
  | .clearOp => clear s

/-- A whole execution from the freshly loaded engine. -/
def runTE (cfg : TECfg) (ops : List TEOp) : TEState :=
  ops.foldl (fun s op => stepTE op s) (initTE cfg)

/-- The single-session timer invariant: the armed timer set is exactly
the one tracked in `clearTimer` (and ids are below the fresh-id
counter). -/
def teInv (s : TEState) : Prop :=
  match s.clearTimer with
  | some id => s.pending = [id] ∧ id < s.nextId
  | none => s.pending = []

/-- The name Ava as UTF-16 units. -/
def teAva : Ustr := strUnits "Ava"

/-- The name Kofi as UTF-16 units. -/
def teKofi : Ustr := strUnits "Kofi"

end TypingEngine

namespace SimulationEngine

/-- The configuration of simulation-engine.js (`cfg`).  `seedBase : none`
models JS `null`. -/
structure SECfg where
  seedBase : Option Int
  useStreamAPI : Bool
  simulateTypingBeforeSend : Bool
  ratePerMin : Int
  pageSize : Nat
  jitterFraction : Frac
  typingMinMs : Int
  typingMaxMs : Int
  typingPerCharMs : Int
  useGeneratorViewIfAvailable : Bool
  simulateTypingFraction : Frac
deriving Repr, DecidableEq

/-- The DEFAULTS object of simulation-engine.js. -/
def DEFAULTS : SECfg :=
  { seedBase := none, useStreamAPI := true, simulateTypingBeforeSend := true,
    ratePerMin := 45, pageSize := 200, jitterFraction := ⟨25, 100⟩,
    typingMinMs := 300, typingMaxMs := 1800, typingPerCharMs := 45,
    useGeneratorViewIfAvailable := true, simulateTypingFraction := ⟨75, 100⟩ }

/-- What a scheduled host callback will do when it fires: the manual-loop
`emitNext` re-emission timer (the one tracked in the module variable
`timer`), a delayed `renderMessage(m)` (these are the anonymous
`setTimeout` callbacks of the typing branches, tracked nowhere), or the
`emitOne` re-emission timer of a `MessagePool.streamToUI` streamer
(tracked in the streamer closure).  Callback delays are not modelled: the
claims concern which callbacks remain fireable, not when they fire. -/
inductive SEKind where
  | emit
  | render (m : MessagePool.Msg)
  | streamEmit
deriving Repr, DecidableEq

/-- Whether a scheduled callback is a delayed message render. -/
def SEKind.isRender : SEKind → Bool
  | .render _ => true
  | _ => false

/-- The closure state of a `MessagePool.streamToUI` call: its `stopped`
flag, its current `timerId`, and its message cursor `idx`. -/
structure Streamer where
  stopped : Bool
  timerId : Option Nat
  sidx : Nat
deriving Repr, DecidableEq

/-- The module state of the simulation engine IIFE plus an explicit host
timer table: `pending` lists armed `setTimeout` callbacks as
(id, kind) pairs and `nextId` is the next fresh timer id.  `rndX` is the
xorshift state of `deterministicRnd` (`none` when it is `null` or
`Math.random`), `mrIdx` the cursor into the ambient `Math.random`
stream, and `rendered` the messages passed to `window.renderMessage` so
far. -/
structure SEState where
  cfg : SECfg
  running : Bool
  timer : Option Nat
  pageIdx : Nat
  rndX : Option Nat
  mrIdx : Nat
  streamer : Option Streamer
  rendered : List MessagePool.Msg
  nextId : Nat
  pending : List (Nat × SEKind)
deriving Repr, DecidableEq

/-- The host environment: `get i` is what
`createGeneratorView(...).get(i)` returns for the engine (it runs
`MessagePool._generateMessageForIndex`, which can throw, see C1/C8);
`page s` is `view.nextPage(s)`; `streamMsg i` is the message the
`streamToUI` closure obtains for index `i` (from the materialized pool or
on-demand generation); `mr` is the ambient `Math.random` stream as raw
32-bit numerators (draw value = `mr k / 2^32`). -/
structure SEEnv where
  get : Nat → Except JsErr MessagePool.Msg
  page : Nat → Except JsErr (List MessagePool.Msg)
  streamMsg : Nat → Except JsErr MessagePool.Msg
  mr : Nat → Nat

/-- Engine state right after the IIFE runs. -/
def initSE (cfg : SECfg) : SEState :=
  { cfg := cfg, running := false, timer := none, pageIdx := 0, rndX := none,
    mrIdx := 0, streamer := none, rendered := [], nextId := 0, pending := [] }

/-- One call of the RNG `deterministicRnd ? deterministicRnd() :
Math.random()`: step the xorshift state if one is installed, otherwise
consume the next ambient draw. -/
def drawRnd (env : SEEnv) (s : SEState) : Nat × SEState :=
  match s.rndX with
  | some x => (xsStep x, { s with rndX := some (xsStep x) })
  | none => (env.mr s.mrIdx, { s with mrIdx := s.mrIdx + 1 })

/-- `SimulationEngine.stop()`: set `running` to false, cancel the tracked
manual-loop timer if any, and stop and drop the current streamer
(`currentStreamer.stop()` sets its `stopped` flag and cancels its timer;
the closure is then dropped). -/
def stopSE (s : SEState) : SEState :=
  let s1 := { s with running := false }
  let s2 := match s1.timer with
    | some tid =>
      { s1 with
        timer := none
        pending := s1.pending.filter (fun e => e.1 != tid) }
    | none => s1
  match s2.streamer with
  | some st =>
    let s3 := match st.timerId with
      | some tid => { s2 with pending := s2.pending.filter (fun e => e.1 != tid) }
      | none => s2
    { s3 with streamer := none }
  | none => s2

/-- `startStreamAPI()` when `MessagePool.streamToUI` exists (it does in
this repository): `currentStreamer = MessagePool.streamToUI({ startIndex:
pageIdx, ... })`, whose body arms the initial `emitOne` timeout at once.
The instrumentation `onEmit` callback is part of the streamer step
below. -/
def startStreamAPI (s : SEState) : SEState :=
  { s with
    streamer := some { stopped := false, timerId := some s.nextId, sidx := s.pageIdx }
    pending := s.pending ++ [(s.nextId, SEKind.streamEmit)]
    nextId := s.nextId + 1 }

/-- `startManualStream()`: its first line returns at once when `running`
is false — which is the case at every call site, because `start()` calls
`this.stop()` right after setting `running = true` (see
`se_stop_clears_engine_timers_C7`), so the body below the guard is dead
in every execution.  Translated past the guard: install
`deterministicRnd = createRnd(cfg.seedBase)`, prefetch the first page
(a throw propagates and nothing is armed), and arm the first tracked
`emitNext` timeout.  The closure page cursor is collapsed onto the module
counter `pageIdx`, which the closure is initialized from and keeps in
sync with. -/
def startManualStream (env : SEEnv) (s : SEState) : SEState :=
  if s.running = false then s
  else
    let s1 := { s with rndX := s.cfg.seedBase.map xsInit }
    match env.page (s1.pageIdx / s1.cfg.pageSize * s1.cfg.pageSize) with
    | .error _ => s1
    | .ok _ =>
      { s1 with
        timer := some s1.nextId
        pending := s1.pending ++ [(s1.nextId, SEKind.emit)]
        nextId := s1.nextId + 1 }

/-- `SimulationEngine.start()`: no-op when already running; otherwise set
`running = true`, call `this.stop()` (which sets it back to false and
clears timers and streamer), then enter the stream path when
`useStreamAPI && !simulateTypingBeforeSend` (streamToUI exists in this
repository) and the manual path otherwise. -/
def startSE (env : SEEnv) (s : SEState) : SEState :=
  if s.running then s
  else
    let s1 := stopSE { s with running := true }
    if s1.cfg.useStreamAPI && !s1.cfg.simulateTypingBeforeSend then startStreamAPI s1
    else startManualStream env s1

/-- `SimulationEngine.triggerOnce()`: fetch the message at `pageIdx`
through a fresh generator view (a throw propagates before any state
change), advance `pageIdx`, then decide typing simulation with one RNG
draw; on typing, the render is deferred through an anonymous
`setTimeout` that is tracked nowhere, otherwise render at once. -/
def triggerOnce (env : SEEnv) (s : SEState) : SEState :=
  match env.get s.pageIdx with
  | .error _ => s
  | .ok m =>
    let s1 := { s with pageIdx := s.pageIdx + 1 }
    let ds := drawRnd env s1
    let s2 := ds.2
    if s2.cfg.simulateTypingBeforeSend && jsLtF ds.1 s2.cfg.simulateTypingFraction then
      { s2 with
        pending := s2.pending ++ [(s2.nextId, SEKind.render m)]
        nextId := s2.nextId + 1 }
    else
      { s2 with rendered := s2.rendered ++ [m] }

/-- The `emitNext` closure of the manual loop, dispatched when its timer
fires (the firing itself already removed the table entry).  Dead code in
every execution — no `emit` entry is ever armed (see
`startManualStream`) — but translated for completeness: return when not
running; a page-fetch throw propagates without rescheduling; otherwise
render or defer-render the next message, then arm the next tracked
emission timer. -/
def fireEmit (env : SEEnv) (s : SEState) : SEState :=
  if s.running = false then s
  else
    match env.get s.pageIdx with
    | .error _ => s
    | .ok m =>
      let ds := drawRnd env s
      let s2 := ds.2
      let s3 :=
        if s2.cfg.simulateTypingBeforeSend && jsLtF ds.1 s2.cfg.simulateTypingFraction then
          let js := drawRnd env s2
          { js.2 with
            pending := js.2.pending ++ [(js.2.nextId, SEKind.render m)]
            nextId := js.2.nextId + 1 }
        else
          { s2 with rendered := s2.rendered ++ [m] }
      let js2 := drawRnd env s3
      { js2.2 with
        pageIdx := js2.2.pageIdx + 1
        timer := some js2.2.nextId
        pending := js2.2.pending ++ [(js2.2.nextId, SEKind.emit)]
        nextId := js2.2.nextId + 1 }

/-- The `emitOne` closure of `streamToUI`, dispatched when its timer
fires: return if the streamer was stopped; a generation throw propagates
without rescheduling; otherwise render the message, run the engine
`onEmit` (set `pageIdx` past the emitted index and draw the occasional
typing nudge from `Math.random`, with a second draw for its duration when
it hits), draw the `Math.random` jitter, and arm the next streamer
timer. -/
def fireStream (env : SEEnv) (s : SEState) : SEState :=
  match s.streamer with
  | none => s
  | some st =>
    if st.stopped then s
    else
      match env.streamMsg st.sidx with
      | .error _ => s
      | .ok m =>
        let s1 := { s with
          rendered := s.rendered ++ [m]
          pageIdx := st.sidx + 1 }
        let nudge := env.mr s1.mrIdx
        let mrIdx2 := if jsLt nudge 2 100 then s1.mrIdx + 3 else s1.mrIdx + 2
        { s1 with
          mrIdx := mrIdx2
          streamer := some { st with timerId := some s1.nextId, sidx := st.sidx + 1 }
          pending := s1.pending ++ [(s1.nextId, SEKind.streamEmit)]
          nextId := s1.nextId + 1 }

/-- The host fires timer `id`: a missing (never-armed or cancelled) id is
a no-op; otherwise the table entry is removed and its callback runs. -/
def fireSE (env : SEEnv) (id : Nat) (s : SEState) : SEState :=
  match s.pending.find? (fun e => e.1 == id) with
  | none => s
  | some e =>
    let s1 := { s with pending := s.pending.filter (fun e => e.1 != id) }
    match e.2 with
    | .emit => fireEmit env s1
    | .render m => { s1 with rendered := s1.rendered ++ [m] }
    | .streamEmit => fireStream env s1

/-- An event of a simulation-engine execution: an API call or a host
timer firing. -/
inductive SEOp where
  | start
  | stop
  | triggerOnce
  | fire (id : Nat)
deriving Repr, DecidableEq

/-- One event. -/
def stepSE (env : SEEnv) (op : SEOp) (s : SEState) : SEState :=
  match op with
  | .start => startSE env s
  | .stop => stopSE s
  | .triggerOnce => triggerOnce env s
  | .fire id => fireSE env id s

/-- A whole execution from the freshly loaded engine. -/
def runSE (cfg : SECfg) (env : SEEnv) (ops : List SEOp) : SEState :=
  ops.foldl (fun s op => stepSE env op s) (initSE cfg)

/-- The reachable-state invariant: the engine is never observably
running (the `start()` bug), the tracked manual timer slot stays empty
and no manual emission callback is ever armed, and every armed streamer
emission callback is the one tracked by the live streamer closure. -/
def seInv (s : SEState) : Prop :=
  s.running = false ∧ s.timer = none ∧
  (∀ id, (id, SEKind.emit) ∉ s.pending) ∧
  (∀ id, (id, SEKind.streamEmit) ∈ s.pending →
    ∃ st, s.streamer = some st ∧ st.timerId = some id ∧ st.stopped = false)

/-- A minimal concrete message for counterexample runs. -/
def seMsg0 : MessagePool.Msg :=
  { mid := strUnits "m0", mname := strUnits "m0", displayName := strUnits "Ava",
    role := Role.VERIFIED, avatar := [], text := strUnits "hi", out := false,
    time := 0, replyTo := none, pinned := false, attachment := none }

/-- A concrete environment for counterexample runs: every index yields
`seMsg0` and every ambient draw is 0. -/
def se0Env : SEEnv :=
  { get := fun _ => .ok seMsg0, page := fun _ => .ok [seMsg0],
    streamMsg := fun _ => .ok seMsg0, mr := fun _ => 0 }

end SimulationEngine

-- ===================== THEOREMS =====================

/-- C10.  The seeded RNG aliases every seed with zero uint32 coercion to
the default seed constant: `xorshift32(seed)` and
`xorshift32(0x811c9dc5)` produce the same infinite raw-state sequence
whenever `seed >>> 0` is `0`, so such seeds are indistinguishable from the
default and never yield an independent run. -/
theorem xorshift32_zero_seed_aliases_default_C10
    (seed : Int) (h : toUint32 seed = 0) (n : Nat) :
    xorshift32 seed n = xorshift32 0x811c9dc5 n := by
  unfold xorshift32
  induction n with
  | zero =>
      show xsInit seed = xsInit 0x811c9dc5
      rw [xsInit, xsInit, h]
      decide
  | succ n ih => simp only [xsNth, ih]

/-- Witness for C10: seed `0` itself coerces to `0` and its first draws
coincide with those of the default seed `0x811c9dc5`. -/
theorem xorshift32_zero_seed_aliases_default_C10_witness :
    toUint32 0 = 0 ∧ xorshift32 0 3 = xorshift32 0x811c9dc5 3 :=
  ⟨by decide, xorshift32_zero_seed_aliases_default_C10 0 (by decide) 3⟩

set_option maxRecDepth 60000 in
set_option maxHeartbeats 4000000 in
/-- Helper for C1: evaluating the setup phase once shows it equals the
precomputed literal setup. -/
theorem mp_c1_setup_eq :
    MessagePool.genSetup c1Opts MessagePool.freshState = c1Setup := by
  rfl

set_option maxRecDepth 60000 in
set_option maxHeartbeats 4000000 in
/-- C1.  The determinism scenario cannot even produce one array: at the
spec input `generatePool({size:100, seedBase:4000, spanDays:1})` (fresh
singleton state, no population, any fixed clock — shown here at a
concrete clock value) the generation loop reaches an index whose draws
select the emoji-decoration branch, which evaluates the undefined
identifier `pickFrom` and throws a ReferenceError, so the call returns no
message sequence at all, let alone twice the same one. -/
theorem mp_generatePool_scenario_throws_C1 :
    MessagePool.generatePool c1Opts
      MessagePool.freshState MessagePool.emptyEnv 1760000000000 =
      .error .pickFromUndefined := by
  unfold MessagePool.generatePool MessagePool.generateArr
  rw [mp_c1_setup_eq]
  rfl

set_option maxRecDepth 60000 in
set_option maxHeartbeats 4000000 in
/-- C8.  The paged generator view crashes before returning a page: with no
materialized pool, `createGeneratorView({pageSize:50}).nextPage(0)` calls
the per-index generator for indices 0..49 and one of them takes the
emoji-decoration branch, which evaluates the undefined identifier
`pickFrom` and throws, so no 50-message page is returned. -/
theorem mp_generatorView_nextPage_throws_C8 :
    MessagePool.createGeneratorView_nextPage { pageSize := some 50 }
      MessagePool.freshState MessagePool.emptyEnv 1760000000000 0 =
      .error .pickFromUndefined := by
  rfl

/-- Helper: the monotonicity pass started with running predecessor time
`prev` yields a strictly increasing list whose head exceeds `prev`. -/
theorem mp_bumpFrom_chain (l : List MessagePool.Msg) (prev : Int) :
    List.Chain' (fun a b : MessagePool.Msg => a.time < b.time)
      (MessagePool.bumpFrom prev l) ∧
    ∀ m ∈ (MessagePool.bumpFrom prev l).head?, prev < m.time := by
  induction l generalizing prev with
  | nil => simp [MessagePool.bumpFrom]
  | cons m rest ih =>
    constructor
    · refine List.chain'_cons'.mpr ⟨?_, (ih _).1⟩
      intro y hy
      exact (ih _).2 y hy
    · intro y hy
      simp only [MessagePool.bumpFrom, List.head?_cons, Option.mem_def,
        Option.some.injEq] at hy
      subst hy
      by_cases hle : m.time ≤ prev
      · simp only [if_pos hle]
        omega
      · simp only [if_neg hle]
        omega

/-- Helper: the whole monotonicity pass yields a strictly increasing
timestamp sequence. -/
theorem mp_jsBump_chain (l : List MessagePool.Msg) :
    List.Chain' (fun a b : MessagePool.Msg => a.time < b.time) (MessagePool.jsBump l) := by
  cases l with
  | nil => simp [MessagePool.jsBump]
  | cons m rest =>
    refine List.chain'_cons'.mpr ⟨?_, (mp_bumpFrom_chain rest m.time).1⟩
    intro y hy
    exact (mp_bumpFrom_chain rest m.time).2 y hy

/-- C2.  Whenever `generatePool` returns (it can also throw, see C1), the
stored message array is strictly increasing in timestamp by index: after
the chronological sort, every element whose timestamp is not strictly
above its predecessor is bumped to predecessor + 1000 ms, so for every
adjacent index pair the stored `time` strictly increases. -/
theorem mp_generatePool_time_strictly_increasing_C2
    (opts : MessagePool.GenOpts) (st : MessagePool.MPState) (env : MessagePool.MPEnv)
    (now : Int) (msgs : List MessagePool.Msg) (st2 : MessagePool.MPState)
    (h : MessagePool.generatePool opts st env now = .ok (msgs, st2))
    (i : Nat) (hi : i + 1 < msgs.length) :
    (msgs.get ⟨i, Nat.lt_of_succ_lt hi⟩).time < (msgs.get ⟨i + 1, hi⟩).time := by
  have hmsgs : ∃ arr, msgs = MessagePool.jsBump (MessagePool.sortByTime arr) := by
    unfold MessagePool.generatePool at h
    cases hg : MessagePool.generateArr opts st env now with
    | error e => rw [hg] at h; exact absurd h (by simp)
    | ok t =>
      obtain ⟨arr, st', cap⟩ := t
      rw [hg] at h
      simp only [Except.ok.injEq, Prod.mk.injEq] at h
      exact ⟨arr, h.1.symm⟩
  obtain ⟨arr, rfl⟩ := hmsgs
  have hchain := mp_jsBump_chain (MessagePool.sortByTime arr)
  exact List.chain'_iff_get.mp hchain i (by omega)

/-- Helper: indexing the left part of an append. -/
theorem mp_get_append_left {α : Type} (l₁ l₂ : List α) (i : Nat) (h : i < l₁.length)
    (h2 : i < (l₁ ++ l₂).length) : (l₁ ++ l₂).get ⟨i, h2⟩ = l₁.get ⟨i, h⟩ := by
  induction l₁ generalizing i with
  | nil => exact absurd h (by simp)
  | cons a t ih =>
    cases i with
    | zero => rfl
    | succ k => exact ih k (by simpa using h) (by simpa using h2)

/-- Helper: indexing the appended last element. -/
theorem mp_get_concat {α : Type} (l : List α) (a : α) (h : l.length < (l ++ [a]).length) :
    (l ++ [a]).get ⟨l.length, h⟩ = a := by
  induction l with
  | nil => rfl
  | cons b t ih => exact ih (by simp)

/-- Helper: an element at an index at or beyond `k` is in the `k`-drop. -/
theorem mp_get_mem_drop {α : Type} (l : List α) (k i : Nat) (hk : k ≤ i)
    (h : i < l.length) : l.get ⟨i, h⟩ ∈ l.drop k := by
  induction l generalizing k i with
  | nil => exact absurd h (by simp)
  | cons a t ih =>
    cases k with
    | zero => simp [List.get_mem]
    | succ k2 =>
      cases i with
      | zero => exact absurd hk (by omega)
      | succ j => exact ih k2 j (by omega) (by simpa using h)

/-- Helper: the empty hash sequence is window-distinct. -/
theorem mp_hashWindowOk_nil (cap : Nat) : hashWindowOk cap [] := by
  intro i j hij hj
  exact absurd hj (by simp)

/-- Helper: appending a hash that is absent from the current window
preserves window-distinctness. -/
theorem mp_hashWindowOk_append (cap : Nat) (hs : List Nat) (h : Nat)
    (hok : hashWindowOk cap hs) (hfresh : h ∉ hs.drop (hs.length - cap)) :
    hashWindowOk cap (hs ++ [h]) := by
  intro i j hij hj hwin
  have hlen : (hs ++ [h]).length = hs.length + 1 := by simp
  by_cases hjlen : j < hs.length
  · have hilen : i < hs.length := lt_trans hij hjlen
    rw [mp_get_append_left hs [h] i hilen, mp_get_append_left hs [h] j hjlen]
    exact hok i j hij hjlen hwin
  · have hjeq : j = hs.length := by omega
    subst hjeq
    have hilen : i < hs.length := hij
    rw [mp_get_append_left hs [h] i hilen, mp_get_concat hs h hj]
    intro hcontra
    apply hfresh
    rw [← hcontra]
    exact mp_get_mem_drop hs (hs.length - cap) i (by omega) hilen

/-- Helper: freshness makes the `contains` test of the LRU false. -/
theorem mp_contains_false_of_not_mem (l : List Nat) (h : Nat) (hfresh : h ∉ l) :
    l.contains h = false := by
  cases hc : l.contains h
  · rfl
  · exact absurd (List.mem_of_elem_eq_true hc) hfresh

/-- Helper: pushing a fresh hash turns the window of `hs` into the window
of `hs ++ [h]`. -/
theorem mp_lruPush_window (cap : Nat) (hcap : 1 ≤ cap) (hs : List Nat) (h : Nat)
    (hfresh : h ∉ hs.drop (hs.length - cap)) :
    MessagePool.lruPush cap (hs.drop (hs.length - cap)) h
      = (hs ++ [h]).drop ((hs ++ [h]).length - cap) := by
  unfold MessagePool.lruPush
  rw [mp_contains_false_of_not_mem _ _ hfresh]
  simp only [Bool.false_eq_true, if_false]
  have hlen : (hs.drop (hs.length - cap) ++ [h]).length
      = hs.length - (hs.length - cap) + 1 := by simp
  by_cases hbig : cap ≤ hs.length
  · have h3 : (hs.drop (hs.length - cap) ++ [h]).length > cap := by rw [hlen]; omega
    rw [if_pos h3]
    have hne : hs.drop (hs.length - cap) ≠ [] := by
      intro hx
      have hld := List.length_drop (hs.length - cap) hs
      rw [hx] at hld
      simp at hld
      omega
    obtain ⟨a, t, hat⟩ := List.exists_cons_of_ne_nil hne
    have ht : t = hs.drop (hs.length - cap + 1) := by
      have htd := List.tail_drop hs (hs.length - cap)
      rw [hat] at htd
      simpa using htd
    rw [hat]
    simp only [List.cons_append, List.tail_cons]
    rw [ht, List.drop_append_of_le_length (by simp; omega)]
    have hidx : hs.length - cap + 1 = (hs ++ [h]).length - cap := by simp; omega
    rw [hidx]
  · have h1 : hs.length - cap = 0 := by omega
    have h3 : ¬ (hs.drop (hs.length - cap) ++ [h]).length > cap := by rw [hlen]; omega
    rw [if_neg h3, h1]
    have h2 : (hs ++ [h]).length - cap = 0 := by simp; omega
    rw [h2, List.drop_zero, List.drop_zero]

/-- Helper: indexing a mapped list. -/
theorem mp_get_map {α β : Type} (f : α → β) (l : List α) (i : Nat)
    (h : i < (l.map f).length) (h2 : i < l.length) :
    (l.map f).get ⟨i, h⟩ = f (l.get ⟨i, h2⟩) := by
  induction l generalizing i with
  | nil => exact absurd h2 (by simp)
  | cons a t ih =>
    cases i with
    | zero => rfl
    | succ k => exact ih k (by simpa using h) (by simpa using h2)

/-- Helper: the generation loop preserves the dedupe window invariant.
If the LRU passed in is exactly the capacity-window of the hashes of the
messages generated so far, and those hashes are window-distinct, then on
success the full hash sequence is window-distinct.  (When a freshly
generated hash is already in the LRU the loop enters the retry, which
always throws, so a success means every pushed hash was fresh.) -/
theorem mp_genLoop_window (mo ro : MessagePool.GenOpts) (st : MessagePool.MPState)
    (env : MessagePool.MPEnv) (now : Int) (cap : Nat) (hcap : 1 ≤ cap) :
    ∀ (r i : Nat) (lru : List Nat) (arr out : List MessagePool.Msg),
      lru = (arr.map MessagePool.msgHash).drop
          ((arr.map MessagePool.msgHash).length - cap) →
      hashWindowOk cap (arr.map MessagePool.msgHash) →
      MessagePool.genLoop mo ro st env now cap i r lru arr = .ok out →
      hashWindowOk cap (out.map MessagePool.msgHash) := by
  intro r
  induction r with
  | zero =>
    intro i lru arr out hlru hok hrun
    simp only [MessagePool.genLoop, Except.ok.injEq] at hrun
    rwa [← hrun]
  | succ r ih =>
    intro i lru arr out hlru hok hrun
    subst hlru
    rw [MessagePool.genLoop] at hrun
    cases hgen : MessagePool._generateMessageForIndex i mo st env now with
    | error e => rw [hgen] at hrun; exact absurd hrun (by simp)
    | ok m =>
      rw [hgen] at hrun
      simp only at hrun
      cases hcont : ((arr.map MessagePool.msgHash).drop
          ((arr.map MessagePool.msgHash).length - cap)).contains (MessagePool.msgHash m) with
      | true =>
        rw [hcont] at hrun
        simp only [if_true] at hrun
        cases hretry : MessagePool._generateMessageForIndex (i + 1) ro st env now with
        | error e => rw [hretry] at hrun; exact absurd hrun (by simp)
        | ok m2 => rw [hretry] at hrun; exact absurd hrun (by simp)
      | false =>
        rw [hcont] at hrun
        simp only [Bool.false_eq_true, if_false] at hrun
        have hfresh : MessagePool.msgHash m ∉
            (arr.map MessagePool.msgHash).drop
              ((arr.map MessagePool.msgHash).length - cap) := by
          intro hmem
          have hcont2 : ((arr.map MessagePool.msgHash).drop
              ((arr.map MessagePool.msgHash).length - cap)).elem
                (MessagePool.msgHash m) = false := hcont
          rw [List.elem_eq_true_of_mem hmem] at hcont2
          exact absurd hcont2 (by simp)
        have hpush := mp_lruPush_window cap hcap (arr.map MessagePool.msgHash)
          (MessagePool.msgHash m) hfresh
        have hmap : (arr ++ [m]).map MessagePool.msgHash
            = arr.map MessagePool.msgHash ++ [MessagePool.msgHash m] := by simp
        apply ih (i + 1)
          (MessagePool.lruPush cap
            ((arr.map MessagePool.msgHash).drop
              ((arr.map MessagePool.msgHash).length - cap)) (MessagePool.msgHash m))
          (arr ++ [m]) out
        · rw [hmap]
          exact hpush
        · rw [hmap]
          exact mp_hashWindowOk_append cap _ _ hok hfresh
        · exact hrun

/-- C5.  Within any window of `cap` consecutive generated messages (the
dedupe LRU capacity, 32 at minimum, 4096 by default), no two content
hashes coincide, for every pool whose raw generation succeeds with size
above the capacity.  The mechanism is stricter than the spec suggests: a
hash collision inside the window makes the source enter its dedupe retry,
whose first iteration evaluates the undefined identifier `pickFrom` and
throws, so a completed pool can contain no within-window collision at
all. -/
theorem mp_dedup_window_distinct_C5
    (opts : MessagePool.GenOpts) (st : MessagePool.MPState) (env : MessagePool.MPEnv)
    (now : Int) (arr : List MessagePool.Msg) (st2 : MessagePool.MPState) (cap : Nat)
    (h : MessagePool.generateArr opts st env now = .ok (arr, st2, cap))
    (hsize : cap < arr.length)
    (i j : Nat) (hij : i < j) (hj : j < arr.length) (hwin : j - i ≤ cap) :
    MessagePool.msgHash (arr.get ⟨i, lt_trans hij hj⟩) ≠
      MessagePool.msgHash (arr.get ⟨j, hj⟩) := by
  unfold MessagePool.generateArr MessagePool.genFromSetup at h
  cases hrun : MessagePool.genLoop (MessagePool.genSetup opts st).msgOpts
      (MessagePool.genSetup opts st).retryOpts (MessagePool.genSetup opts st).st2 env now
      (MessagePool.genSetup opts st).cap 0 (MessagePool.genSetup opts st).size [] [] with
  | error e => rw [hrun] at h; exact absurd h (by simp)
  | ok arr2 =>
    rw [hrun] at h
    simp only [Except.ok.injEq, Prod.mk.injEq] at h
    obtain ⟨harr, hst2, hcapeq⟩ := h
    subst harr
    have hcap1 : 1 ≤ (MessagePool.genSetup opts st).cap := by
      have hc : (MessagePool.genSetup opts st).cap = MessagePool.lruCap opts := rfl
      rw [hc]
      exact le_trans (by norm_num) (Nat.le_max_left 32 _)
    have hwok := mp_genLoop_window (MessagePool.genSetup opts st).msgOpts
      (MessagePool.genSetup opts st).retryOpts (MessagePool.genSetup opts st).st2 env now
      (MessagePool.genSetup opts st).cap hcap1 (MessagePool.genSetup opts st).size 0 [] [] arr2
      (by simp) (mp_hashWindowOk_nil _) hrun
    rw [← hcapeq] at hwin
    intro heq
    have hj2 : j < (arr2.map MessagePool.msgHash).length := by
      rw [List.length_map]; exact hj
    apply hwok i j hij hj2 hwin
    rw [mp_get_map MessagePool.msgHash arr2 i (lt_trans hij hj2) (lt_trans hij hj),
      mp_get_map MessagePool.msgHash arr2 j hj2 hj]
    exact heq

set_option maxRecDepth 60000 in
set_option maxHeartbeats 2000000 in
/-- Witness for C2: a concrete successful run (size 10, seed 15, explicit
templates) whose first two stored messages have strictly increasing
timestamps, via the theorem. -/
theorem mp_generatePool_time_strictly_increasing_C2_witness :
    (c2Msgs.get ⟨0, by decide⟩).time < (c2Msgs.get ⟨1, by decide⟩).time :=
  mp_generatePool_time_strictly_increasing_C2
    { size := some 10, seedBase := some 15, templates := some c2Templates }
    MessagePool.freshState MessagePool.emptyEnv 1760000000000 c2Msgs c2St
    (by rfl) 0 (by decide)

set_option maxRecDepth 60000 in
set_option maxHeartbeats 2000000 in
/-- Witness for C5: a concrete successful raw run of size 33 with LRU
capacity 32; the hashes at generation positions 0 and 32 (distance 32,
within the window) differ, via the theorem. -/
theorem mp_dedup_window_distinct_C5_witness :
    MessagePool.msgHash (c5Arr.get ⟨0, by decide⟩) ≠
      MessagePool.msgHash (c5Arr.get ⟨32, by decide⟩) :=
  mp_dedup_window_distinct_C5
    { size := some 33, seedBase := some 147, templates := some c5Templates,
      dedupeLRU := some 32 }
    MessagePool.freshState MessagePool.emptyEnv 1760000000000 c5Arr c5St c5Cap
    (by rfl) (by decide) 0 32 (by decide) (by decide) (by decide)

/-- C3 counterexample.  The claim quantifies over every configuration,
but for a configuration with `minOnline` above `maxOnline` the clamp
`Math.max(min, Math.min(max, v))` returns `minOnline`, which lies outside
the (empty) closed interval `[minOnline, maxOnline]`: with
`{minOnline:100, maxOnline:50}` the displayed count is 100 and the
interval contains nothing. -/
theorem pm_displayed_outside_interval_C3_counterexample :
    (PresenceManager.displayedOnline pmBadOpts pmRun0).1 = 100 ∧
    (PresenceManager.displayedOnline pmBadOpts pmRun0).1 ∉
      Set.Icc pmBadOpts.minOnline pmBadOpts.maxOnline := by
  constructor
  · rfl
  · simp only [Set.mem_Icc]
    decide

/-- Helper: the clamp lands inside the interval when the interval is
nonempty. -/
theorem pm_jsClamp_mem (v a b : Int) (h : a ≤ b) : jsClamp v a b ∈ Set.Icc a b := by
  simp only [jsClamp, Set.mem_Icc]
  omega

/-- C3 amended.  Provided the configuration is well-formed
(`minOnline ≤ maxOnline`), the visible count and the displayed count
(after the ± organic jitter of up to 6) always lie in
`[minOnline, maxOnline]`, for every member list, draw stream and clock
stream. -/
theorem pm_visible_count_clamped_C3 (o : PresenceManager.PMOpts)
    (s : PresenceManager.PMRun) (h : o.minOnline ≤ o.maxOnline) :
    (PresenceManager.computeVisibleOnline o s).1 ∈ Set.Icc o.minOnline o.maxOnline ∧
    (PresenceManager.displayedOnline o s).1 ∈ Set.Icc o.minOnline o.maxOnline :=
  ⟨pm_jsClamp_mem _ _ _ h, pm_jsClamp_mem _ _ _ h⟩

/-- Witness for the amended C3: the default configuration is well-formed
and the counts computed on an empty population stay within [60, 250]. -/
theorem pm_visible_count_clamped_C3_witness :
    (PresenceManager.computeVisibleOnline PresenceManager.DEFAULTS pmRun0).1 ∈
      Set.Icc PresenceManager.DEFAULTS.minOnline PresenceManager.DEFAULTS.maxOnline ∧
    (PresenceManager.displayedOnline PresenceManager.DEFAULTS pmRun0).1 ∈
      Set.Icc PresenceManager.DEFAULTS.minOnline PresenceManager.DEFAULTS.maxOnline :=
  pm_visible_count_clamped_C3 PresenceManager.DEFAULTS pmRun0 (by decide)

/-- Helper: a generated participant is flagged ADMIN exactly when its
index is in the sampled admin set, for every oracle and counter (the
ADMIN test short-circuits before any draw that the oracle could shift). -/
theorem sp_genParticipant_role_admin (or : SyntheticPeople.SPOracle) (sb : Int)
    (aSet mSet : List Int) (i k : Nat) :
    ((SyntheticPeople.genParticipant or sb aSet mSet i k).1.role = Role.ADMIN)
      ↔ (i : Int) ∈ aSet := by
  unfold SyntheticPeople.genParticipant
  by_cases h1 : (i : Int) ∈ aSet
  · simp [h1]
  · simp only [h1, iff_false]
    by_cases h2 : (i : Int) ∈ mSet
    · simp [h1, h2]
    · by_cases h3 : jsLt (xsStep (SyntheticPeople.makeDisplayName or (xsInit (sb + (i : Int) * 137)) k).2.1) 1 100 = true
      · simp [h1, h2, h3]
      · simp only [Bool.not_eq_true] at h3
        simp [h1, h2, h3]

/-- Helper: a generated participant always has role ADMIN, MOD or
VERIFIED (never NONE or YOU). -/
theorem sp_genParticipant_role_cases (or : SyntheticPeople.SPOracle) (sb : Int)
    (aSet mSet : List Int) (i k : Nat) :
    ((SyntheticPeople.genParticipant or sb aSet mSet i k).1.role == Role.ADMIN
      || (SyntheticPeople.genParticipant or sb aSet mSet i k).1.role == Role.MOD
      || (SyntheticPeople.genParticipant or sb aSet mSet i k).1.role == Role.VERIFIED)
      = true := by
  unfold SyntheticPeople.genParticipant
  by_cases h1 : (i : Int) ∈ aSet
  · simp [h1]
  · by_cases h2 : (i : Int) ∈ mSet
    · simp [h1, h2]
    · by_cases h3 : jsLt (xsStep (SyntheticPeople.makeDisplayName or (xsInit (sb + (i : Int) * 137)) k).2.1) 1 100 = true
      · simp [h1, h2, h3]
      · simp only [Bool.not_eq_true] at h3
        simp [h1, h2, h3]

/-- Helper: the number of ADMIN-flagged participants produced by the loop
equals the number of loop indices lying in the admin set, for every
oracle state. -/
theorem sp_spLoop_filter_admin (or : SyntheticPeople.SPOracle) (sb : Int)
    (aSet mSet : List Int) :
    ∀ (fuel i k : Nat),
      ((SyntheticPeople.spLoop or sb aSet mSet fuel i k).filter
          (fun p => p.role == Role.ADMIN)).length
        = ((List.range' i fuel).filter (fun (j : Nat) => decide ((j : Int) ∈ aSet))).length := by
  intro fuel
  induction fuel with
  | zero => intro i k; rfl
  | succ f ih =>
    intro i k
    rw [SyntheticPeople.spLoop, List.range']
    simp only [List.filter]
    by_cases h1 : (i : Int) ∈ aSet
    · have hr : ((SyntheticPeople.genParticipant or sb aSet mSet i k).1.role == Role.ADMIN) = true := by
        rw [beq_iff_eq]
        exact (sp_genParticipant_role_admin or sb aSet mSet i k).mpr h1
      rw [hr, decide_eq_true h1]
      simp only [List.length_cons]
      rw [ih]
    · have hr : ((SyntheticPeople.genParticipant or sb aSet mSet i k).1.role == Role.ADMIN) = false := by
        rw [beq_eq_false_iff_ne]
        intro hx
        exact h1 ((sp_genParticipant_role_admin or sb aSet mSet i k).mp hx)
      rw [hr, decide_eq_false h1]
      exact ih (i + 1) _

/-- Helper: every participant produced by the loop has role ADMIN, MOD or
VERIFIED. -/
theorem sp_spLoop_all_roles (or : SyntheticPeople.SPOracle) (sb : Int)
    (aSet mSet : List Int) :
    ∀ (fuel i k : Nat),
      (SyntheticPeople.spLoop or sb aSet mSet fuel i k).all
        (fun p => p.role == Role.ADMIN || p.role == Role.MOD
          || p.role == Role.VERIFIED) = true := by
  intro fuel
  induction fuel with
  | zero => intro i k; rfl
  | succ f ih =>
    intro i k
    rw [SyntheticPeople.spLoop]
    simp only [List.all_cons, Bool.and_eq_true]
    exact ⟨sp_genParticipant_role_cases or sb aSet mSet i k, ih (i + 1) _⟩

/-- Helper: the loop produces exactly `fuel` participants. -/
theorem sp_spLoop_length (or : SyntheticPeople.SPOracle) (sb : Int)
    (aSet mSet : List Int) :
    ∀ (fuel i k : Nat),
      (SyntheticPeople.spLoop or sb aSet mSet fuel i k).length = fuel := by
  intro fuel
  induction fuel with
  | zero => intro i k; rfl
  | succ f ih =>
    intro i k
    rw [SyntheticPeople.spLoop]
    simp only [List.length_cons]
    rw [ih]

set_option maxRecDepth 20000 in
/-- C6.  For `generatePool({size:1000, seedBase:2026})`, for every oracle
(uid strings, avatar registry, clock, and the `Math.random()` nickname
coin flips, which can shift the seeded draw stream), exactly
`Math.round(1000*0.004) = 4` participants are flagged ADMIN — the four
sampled admin indices at seed 2026 are collision-free — and every
participant that is neither ADMIN nor MOD has role VERIFIED (the role
expression can produce nothing else; NONE and YOU never occur). -/
theorem sp_generatePool_role_assignment_C6 (or : SyntheticPeople.SPOracle) :
    ((SyntheticPeople.generatePool
        { size := some (Frac.ofInt 1000), seedBase := some 2026 }
        SyntheticPeople.freshMeta or).filter
      (fun p => p.role == Role.ADMIN)).length = 4 ∧
    (SyntheticPeople.generatePool
        { size := some (Frac.ofInt 1000), seedBase := some 2026 }
        SyntheticPeople.freshMeta or).all
      (fun p => p.role == Role.ADMIN || p.role == Role.MOD
        || p.role == Role.VERIFIED) = true := by
  constructor
  · simp only [SyntheticPeople.generatePool]
    rw [sp_spLoop_filter_admin]
    decide
  · simp only [SyntheticPeople.generatePool]
    exact sp_spLoop_all_roles _ _ _ _ _ _ _

/-- Helper: the clamped size has positive denominator and lies between 10
and 20000. -/
theorem sp_frac_clamp_bounds (v : Frac) (hv : 0 < v.den) :
    0 < (jsClampF v 10 20000).den ∧
    10 * (jsClampF v 10 20000).den ≤ (jsClampF v 10 20000).num ∧
    (jsClampF v 10 20000).num ≤ 20000 * (jsClampF v 10 20000).den := by
  unfold jsClampF
  by_cases hb : Frac.lt (Frac.ofInt 20000) v = true
  · rw [if_pos hb, if_neg (by decide)]
    refine ⟨by decide, by decide, by decide⟩
  · rw [if_neg hb]
    have hb2 : ¬ ((20000 : Int) * v.den < v.num * 1) := by
      simpa [Frac.lt, Frac.ofInt] using hb
    by_cases ha : Frac.lt v (Frac.ofInt 10) = true
    · rw [if_pos ha]
      refine ⟨by decide, by decide, by decide⟩
    · rw [if_neg ha]
      have ha2 : ¬ (v.num * 1 < 10 * v.den) := by
        simpa [Frac.lt, Frac.ofInt] using ha
      exact ⟨hv, by omega, by omega⟩

/-- Helper: the ceiling of the clamped size lies in [10, 20000]. -/
theorem sp_frac_ceil_bounds (c : Frac) (h1 : 0 < c.den) (h2 : 10 * c.den ≤ c.num)
    (h3 : c.num ≤ 20000 * c.den) : 10 ≤ c.ceil ∧ c.ceil ≤ 20000 := by
  unfold Frac.ceil
  rw [Int.fdiv_eq_ediv _ (le_of_lt h1)]
  constructor
  · rw [Int.le_ediv_iff_mul_le h1]
    omega
  · by_contra hgt
    push_neg at hgt
    have h4 : (20001 : Int) ≤ (c.num + c.den - 1) / c.den := by omega
    rw [Int.le_ediv_iff_mul_le h1] at h4
    omega

/-- C9.  `SyntheticPeople.generatePool` never rejects a numeric size: for
every fractional size argument (and module state), the size is clamped
into [10, 20000], generation proceeds (the embedding is a total
function), and the generated pool length lies in [10, 20000].  Absent,
zero or NaN sizes fall back to the module default and are in range as
well. -/
theorem sp_generatePool_length_clamped_C9 (sizeArg : Option Frac) (seedArg : Option Int)
    (meta : SyntheticPeople.SPMeta) (or : SyntheticPeople.SPOracle)
    (hden : ∀ f, sizeArg = some f → 0 < f.den) (hmden : 0 < meta.size.den) :
    10 ≤ (SyntheticPeople.generatePool { size := sizeArg, seedBase := seedArg }
        meta or).length ∧
    (SyntheticPeople.generatePool { size := sizeArg, seedBase := seedArg }
        meta or).length ≤ 20000 := by
  have hv : 0 < (jsOrF sizeArg (jsOrF (some meta.size) (Frac.ofInt 1000))).den := by
    cases sizeArg with
    | none =>
      by_cases hz : meta.size.num = 0
      · simp [jsOrF, hz, Frac.ofInt]
      · simp [jsOrF, hz, hmden]
    | some f =>
      by_cases hz : f.num = 0
      · by_cases hz2 : meta.size.num = 0
        · simp [jsOrF, hz, hz2, Frac.ofInt]
        · simp [jsOrF, hz, hz2, hmden]
      · simp only [jsOrF, if_neg hz]
        exact hden f rfl
  obtain ⟨hc1, hc2, hc3⟩ := sp_frac_clamp_bounds _ hv
  obtain ⟨hl, hu⟩ := sp_frac_ceil_bounds _ hc1 hc2 hc3
  simp only [SyntheticPeople.generatePool]
  rw [sp_spLoop_length]
  omega

/-- Witness for C9: a far out-of-range size request (50000) is clamped,
not rejected, and the resulting pool length is within [10, 20000]. -/
theorem sp_generatePool_length_clamped_C9_witness :
    10 ≤ (SyntheticPeople.generatePool
        { size := some ⟨50000, 1⟩, seedBase := none }
        SyntheticPeople.freshMeta spOracle0).length ∧
    (SyntheticPeople.generatePool
        { size := some ⟨50000, 1⟩, seedBase := none }
        SyntheticPeople.freshMeta spOracle0).length ≤ 20000 :=
  sp_generatePool_length_clamped_C9 (some ⟨50000, 1⟩) none
    SyntheticPeople.freshMeta spOracle0
    (fun f hf => by cases hf; decide) (by decide)

/-- Helper: the freshly loaded typing engine satisfies the single-timer
invariant. -/
theorem te_inv_init (cfg : TypingEngine.TECfg) : TypingEngine.teInv (TypingEngine.initTE cfg) :=
  rfl

/-- Helper: every engine event preserves the single-timer invariant. -/
theorem te_inv_step (op : TypingEngine.TEOp) (s : TypingEngine.TEState)
    (h : TypingEngine.teInv s) : TypingEngine.teInv (TypingEngine.stepTE op s) := by
  cases op with
  | trigger names dm =>
    unfold TypingEngine.stepTE TypingEngine.triggerTyping
    unfold TypingEngine.teInv at h ⊢
    cases hct : s.clearTimer with
    | none =>
      rw [hct] at h
      simp [hct, h]
    | some id =>
      rw [hct] at h
      simp [hct, h.1]
  | fireClear id =>
    show TypingEngine.teInv (TypingEngine.fireClear id s)
    unfold TypingEngine.fireClear
    by_cases hc : s.pending.contains id = true
    · rw [if_pos hc]
      unfold TypingEngine.teInv at h ⊢
      cases hct : s.clearTimer with
      | none =>
        rw [hct] at h
        rw [h] at hc
        exact absurd hc (by simp)
      | some tid =>
        rw [hct] at h
        obtain ⟨hp, hlt⟩ := h
        rw [hp] at hc
        simp only [List.contains_cons, List.contains_nil, Bool.or_false, beq_iff_eq] at hc
        subst hc
        simp [hp]
    · rw [if_neg hc]
      exact h
  | clearOp =>
    unfold TypingEngine.stepTE TypingEngine.clear
    unfold TypingEngine.teInv at h ⊢
    cases hct : s.clearTimer with
    | none =>
      rw [hct] at h
      simp [hct, h]
    | some id =>
      rw [hct] at h
      simp [hct, h.1]

/-- Helper: the invariant survives an arbitrary suffix of events. -/
theorem te_inv_fold (ops : List TypingEngine.TEOp) :
    ∀ s, TypingEngine.teInv s →
      TypingEngine.teInv (ops.foldl (fun s op => TypingEngine.stepTE op s) s) := by
  induction ops with
  | nil => intro s h; exact h
  | cons op rest ih => intro s h; exact ih _ (te_inv_step op s h)

/-- Helper: every reachable engine state satisfies the single-timer
invariant. -/
theorem te_inv_run (cfg : TypingEngine.TECfg) (ops : List TypingEngine.TEOp) :
    TypingEngine.teInv (TypingEngine.runTE cfg ops) :=
  te_inv_fold ops _ (te_inv_init cfg)

/-- Helper: firing a timer id that is not armed is a no-op. -/
theorem te_fireClear_skip (id : Nat) (s : TypingEngine.TEState)
    (h : s.pending.contains id = false) : TypingEngine.fireClear id s = s := by
  unfold TypingEngine.fireClear
  rw [h]
  simp

/-- C4.  The typing engine keeps at most one session timer armed at any
reachable state; a `triggerTyping` call while a timer is armed cancels it
(the superseded id is no longer pending and firing it afterwards is a
no-op, so the superseded clear never runs); and in the concrete scenario
trigger([Ava],500) then trigger([Kofi],500) the engine shows exactly
[Kofi] and is active. -/
theorem te_single_session_replacement_C4
    (cfg : TypingEngine.TECfg) (ops ops2 : List TypingEngine.TEOp)
    (names : List Ustr) (dm : Option Int) (old : Nat)
    (h : (TypingEngine.runTE cfg ops).clearTimer = some old) :
    (TypingEngine.runTE cfg ops2).pending.length ≤ 1 ∧
    old ∉ (TypingEngine.stepTE (TypingEngine.TEOp.trigger names dm)
        (TypingEngine.runTE cfg ops)).pending ∧
    TypingEngine.stepTE (TypingEngine.TEOp.fireClear old)
        (TypingEngine.stepTE (TypingEngine.TEOp.trigger names dm)
          (TypingEngine.runTE cfg ops))
      = TypingEngine.stepTE (TypingEngine.TEOp.trigger names dm)
          (TypingEngine.runTE cfg ops) ∧
    (TypingEngine.runTE TypingEngine.DEFAULTS
        [TypingEngine.TEOp.trigger [TypingEngine.teAva] (some 500),
         TypingEngine.TEOp.trigger [TypingEngine.teKofi] (some 500)]).shownNames
      = [TypingEngine.teKofi] ∧
    (TypingEngine.runTE TypingEngine.DEFAULTS
        [TypingEngine.TEOp.trigger [TypingEngine.teAva] (some 500),
         TypingEngine.TEOp.trigger [TypingEngine.teKofi] (some 500)]).active = true := by
  have hs := te_inv_run cfg ops
  unfold TypingEngine.teInv at hs
  rw [h] at hs
  obtain ⟨hp, hlt⟩ := hs
  have hpend : (TypingEngine.stepTE (TypingEngine.TEOp.trigger names dm)
      (TypingEngine.runTE cfg ops)).pending
        = [(TypingEngine.runTE cfg ops).nextId] := by
    unfold TypingEngine.stepTE TypingEngine.triggerTyping
    simp [h, hp]
  refine ⟨?_, ?_, ?_, by decide, by decide⟩
  · have h2 := te_inv_run cfg ops2
    unfold TypingEngine.teInv at h2
    cases hct : (TypingEngine.runTE cfg ops2).clearTimer with
    | none => rw [hct] at h2; simp [h2]
    | some id => rw [hct] at h2; simp [h2.1]
  · rw [hpend]
    simp only [List.mem_singleton]
    omega
  · show TypingEngine.fireClear old _ = _
    apply te_fireClear_skip
    rw [hpend]
    simp only [List.contains_cons, List.contains_nil, Bool.or_false, beq_eq_false_iff_ne,
      ne_eq]
    omega

/-- Witness for C4: after trigger([Ava],500) the armed timer has id 0 and
the theorem applies, giving the single-timer bound, the cancellation of
id 0 by the Kofi trigger, the no-op firing of the superseded timer, and
the Kofi scenario outcome. -/
theorem te_single_session_replacement_C4_witness :
    (TypingEngine.runTE TypingEngine.DEFAULTS
        [TypingEngine.TEOp.trigger [TypingEngine.teAva] (some 500)]).clearTimer
      = some 0 ∧
    ((TypingEngine.runTE TypingEngine.DEFAULTS
        [TypingEngine.TEOp.trigger [TypingEngine.teAva] (some 500)]).pending.length ≤ 1 ∧
    0 ∉ (TypingEngine.stepTE (TypingEngine.TEOp.trigger [TypingEngine.teKofi] (some 500))
        (TypingEngine.runTE TypingEngine.DEFAULTS
          [TypingEngine.TEOp.trigger [TypingEngine.teAva] (some 500)])).pending ∧
    TypingEngine.stepTE (TypingEngine.TEOp.fireClear 0)
        (TypingEngine.stepTE (TypingEngine.TEOp.trigger [TypingEngine.teKofi] (some 500))
          (TypingEngine.runTE TypingEngine.DEFAULTS
            [TypingEngine.TEOp.trigger [TypingEngine.teAva] (some 500)]))
      = TypingEngine.stepTE (TypingEngine.TEOp.trigger [TypingEngine.teKofi] (some 500))
          (TypingEngine.runTE TypingEngine.DEFAULTS
            [TypingEngine.TEOp.trigger [TypingEngine.teAva] (some 500)]) ∧
    (TypingEngine.runTE TypingEngine.DEFAULTS
        [TypingEngine.TEOp.trigger [TypingEngine.teAva] (some 500),
         TypingEngine.TEOp.trigger [TypingEngine.teKofi] (some 500)]).shownNames
      = [TypingEngine.teKofi] ∧
    (TypingEngine.runTE TypingEngine.DEFAULTS
        [TypingEngine.TEOp.trigger [TypingEngine.teAva] (some 500),
         TypingEngine.TEOp.trigger [TypingEngine.teKofi] (some 500)]).active = true) :=
  ⟨rfl, te_single_session_replacement_C4 TypingEngine.DEFAULTS
    [TypingEngine.TEOp.trigger [TypingEngine.teAva] (some 500)]
    [TypingEngine.TEOp.trigger [TypingEngine.teAva] (some 500)]
    [TypingEngine.teKofi] (some 500) 0 rfl⟩

/-- Helper: `stop()` leaves the engine not running with both the tracked
manual timer and the streamer cleared, for every state. -/
theorem se_stop_shape (s : SimulationEngine.SEState) :
    (SimulationEngine.stopSE s).running = false ∧
    (SimulationEngine.stopSE s).timer = none ∧
    (SimulationEngine.stopSE s).streamer = none := by
  unfold SimulationEngine.stopSE
  cases ht : s.timer with
  | none =>
    cases hst : s.streamer with
    | none => simp [ht, hst]
    | some st =>
      cases htid : st.timerId with
      | none => simp [ht, hst, htid]
      | some tid => simp [ht, hst, htid]
  | some tid0 =>
    cases hst : s.streamer with
    | none => simp [ht, hst]
    | some st =>
      cases htid : st.timerId with
      | none => simp [ht, hst, htid]
      | some tid => simp [ht, hst, htid]

/-- Helper: `stop()` only removes timer-table entries, never adds any. -/
theorem se_stop_pending_sub (s : SimulationEngine.SEState) (e : Nat × SimulationEngine.SEKind)
    (h : e ∈ (SimulationEngine.stopSE s).pending) : e ∈ s.pending := by
  unfold SimulationEngine.stopSE at h
  cases ht : s.timer with
  | none =>
    cases hst : s.streamer with
    | none => simpa [ht, hst] using h
    | some st =>
      cases htid : st.timerId with
      | none => simpa [ht, hst, htid] using h
      | some tid =>
        simp only [ht, hst, htid, List.mem_filter] at h
        exact h.1
  | some tid0 =>
    cases hst : s.streamer with
    | none =>
      simp only [ht, hst, List.mem_filter] at h
      exact h.1
    | some st =>
      cases htid : st.timerId with
      | none =>
        simp only [ht, hst, htid, List.mem_filter] at h
        exact h.1
      | some tid =>
        simp only [ht, hst, htid, List.mem_filter] at h
        exact h.1.1

/-- Helper: after `stop()` no streamer emission callback remains armed,
provided every armed one was tracked by the live streamer. -/
theorem se_stop_no_stream (s : SimulationEngine.SEState)
    (h4 : ∀ id, (id, SimulationEngine.SEKind.streamEmit) ∈ s.pending →
      ∃ st, s.streamer = some st ∧ st.timerId = some id ∧ st.stopped = false)
    (id : Nat) :
    (id, SimulationEngine.SEKind.streamEmit) ∉ (SimulationEngine.stopSE s).pending := by
  intro h
  have hmem := se_stop_pending_sub s _ h
  obtain ⟨st, hst, htid, _⟩ := h4 id hmem
  unfold SimulationEngine.stopSE at h
  cases ht : s.timer with
  | none =>
    simp only [ht, hst, htid, List.mem_filter] at h
    simp at h
  | some tid0 =>
    simp only [ht, hst, htid, List.mem_filter] at h
    simp at h

/-- Helper: `stop()` preserves the reachable-state invariant (and holds
even from the transient `running = true` state inside `start()`, since it
does not consult `running`). -/
theorem se_inv_stop (s : SimulationEngine.SEState)
    (h3 : ∀ id, (id, SimulationEngine.SEKind.emit) ∉ s.pending)
    (h4 : ∀ id, (id, SimulationEngine.SEKind.streamEmit) ∈ s.pending →
      ∃ st, s.streamer = some st ∧ st.timerId = some id ∧ st.stopped = false) :
    SimulationEngine.seInv (SimulationEngine.stopSE s) := by
  refine ⟨(se_stop_shape s).1, (se_stop_shape s).2.1, ?_, ?_⟩
  · intro id h
    exact h3 id (se_stop_pending_sub s _ h)
  · intro id h
    exact absurd h (se_stop_no_stream s h4 id)

/-- Helper: `stop()` touches neither the message cursor nor the rendered
log. -/
theorem se_stop_preserves (s : SimulationEngine.SEState) :
    (SimulationEngine.stopSE s).pageIdx = s.pageIdx ∧
    (SimulationEngine.stopSE s).rendered = s.rendered := by
  unfold SimulationEngine.stopSE
  cases ht : s.timer with
  | none =>
    cases hst : s.streamer with
    | none => simp [ht, hst]
    | some st =>
      cases htid : st.timerId with
      | none => simp [ht, hst, htid]
      | some tid => simp [ht, hst, htid]
  | some tid0 =>
    cases hst : s.streamer with
    | none => simp [ht, hst]
    | some st =>
      cases htid : st.timerId with
      | none => simp [ht, hst, htid]
      | some tid => simp [ht, hst, htid]

/-- Helper: `start()` touches neither the message cursor nor the rendered
log, so restarting never rewinds or replays. -/
theorem se_start_preserves (env : SimulationEngine.SEEnv) (s : SimulationEngine.SEState) :
    (SimulationEngine.startSE env s).pageIdx = s.pageIdx ∧
    (SimulationEngine.startSE env s).rendered = s.rendered := by
  unfold SimulationEngine.startSE
  by_cases hr : s.running
  · simp [hr]
  · simp only [hr, if_false, Bool.false_eq_true]
    have hstop := se_stop_preserves { s with running := true }
    by_cases hb : (SimulationEngine.stopSE { s with running := true }).cfg.useStreamAPI
        && !(SimulationEngine.stopSE { s with running := true }).cfg.simulateTypingBeforeSend
    · rw [if_pos hb]
      unfold SimulationEngine.startStreamAPI
      exact hstop
    · rw [if_neg hb]
      unfold SimulationEngine.startManualStream
      have hrun : (SimulationEngine.stopSE { s with running := true }).running = false :=
        (se_stop_shape _).1
      rw [if_pos hrun]
      exact hstop

/-- Helper: the freshly loaded engine satisfies the invariant. -/
theorem se_inv_init (cfg : SimulationEngine.SECfg) :
    SimulationEngine.seInv (SimulationEngine.initSE cfg) := by
  refine ⟨rfl, rfl, ?_, ?_⟩
  · intro id h
    exact absurd h (by simp [SimulationEngine.initSE])
  · intro id h
    exact absurd h (by simp [SimulationEngine.initSE])

/-- Helper: every engine event preserves the invariant. -/
theorem se_inv_step (env : SimulationEngine.SEEnv) (op : SimulationEngine.SEOp)
    (s : SimulationEngine.SEState) (h : SimulationEngine.seInv s) :
    SimulationEngine.seInv (SimulationEngine.stepSE env op s) := by
  obtain ⟨h1, h2, h3, h4⟩ := h
  cases op with
  | stop =>
    exact se_inv_stop s h3 h4
  | start =>
    show SimulationEngine.seInv (SimulationEngine.startSE env s)
    unfold SimulationEngine.startSE
    rw [if_neg (by rw [h1]; exact Bool.false_ne_true)]
    have hstop := se_inv_stop { s with running := true } h3 h4
    have hnostream := se_stop_no_stream { s with running := true } h4
    by_cases hb : (SimulationEngine.stopSE { s with running := true }).cfg.useStreamAPI
        && !(SimulationEngine.stopSE { s with running := true }).cfg.simulateTypingBeforeSend
    · rw [if_pos hb]
      obtain ⟨g1, g2, g3, _⟩ := hstop
      unfold SimulationEngine.startStreamAPI
      refine ⟨g1, g2, ?_, ?_⟩
      · intro id hmem
        simp only [List.mem_append, List.mem_singleton] at hmem
        rcases hmem with hmem | hmem
        · exact g3 id hmem
        · exact absurd hmem (by simp)
      · intro id hmem
        simp only [List.mem_append, List.mem_singleton] at hmem
        rcases hmem with hmem | hmem
        · exact absurd hmem (hnostream id)
        · simp only [Prod.mk.injEq] at hmem
          exact ⟨_, rfl, by rw [hmem.1], rfl⟩
    · rw [if_neg hb]
      unfold SimulationEngine.startManualStream
      rw [if_pos hstop.1]
      exact hstop
  | triggerOnce =>
    show SimulationEngine.seInv (SimulationEngine.triggerOnce env s)
    unfold SimulationEngine.triggerOnce
    cases hg : env.get s.pageIdx with
    | error e => exact ⟨h1, h2, h3, h4⟩
    | ok m =>
      simp only
      unfold SimulationEngine.drawRnd
      cases hx : s.rndX with
      | some x =>
        by_cases hd : s.cfg.simulateTypingBeforeSend
            && jsLtF (xsStep x) s.cfg.simulateTypingFraction
        · simp only [hx, hd, if_true]
          refine ⟨h1, h2, ?_, ?_⟩
          · intro id hmem
            simp only [List.mem_append, List.mem_singleton] at hmem
            rcases hmem with hmem | hmem
            · exact h3 id hmem
            · exact absurd hmem (by simp)
          · intro id hmem
            simp only [List.mem_append, List.mem_singleton] at hmem
            rcases hmem with hmem | hmem
            · exact h4 id hmem
            · exact absurd hmem (by simp)
        · simp only [hx, hd, if_false, Bool.false_eq_true]
          exact ⟨h1, h2, h3, h4⟩
      | none =>
        by_cases hd : s.cfg.simulateTypingBeforeSend
            && jsLtF (env.mr s.mrIdx) s.cfg.simulateTypingFraction
        · simp only [hx, hd, if_true]
          refine ⟨h1, h2, ?_, ?_⟩
          · intro id hmem
            simp only [List.mem_append, List.mem_singleton] at hmem
            rcases hmem with hmem | hmem
            · exact h3 id hmem
            · exact absurd hmem (by simp)
          · intro id hmem
            simp only [List.mem_append, List.mem_singleton] at hmem
            rcases hmem with hmem | hmem
            · exact h4 id hmem
            · exact absurd hmem (by simp)
        · simp only [hx, hd, if_false, Bool.false_eq_true]
          exact ⟨h1, h2, h3, h4⟩
  | fire id =>
    show SimulationEngine.seInv (SimulationEngine.fireSE env id s)
    unfold SimulationEngine.fireSE
    cases hf : s.pending.find? (fun e => e.1 == id) with
    | none => exact ⟨h1, h2, h3, h4⟩
    | some e =>
      have hemem : e ∈ s.pending := List.mem_of_find?_eq_some hf
      have hpred := List.find?_some hf
      have hid : e.1 = id := by simpa using hpred
      simp only
      cases hk : e.2 with
      | emit =>
        exfalso
        apply h3 e.1
        have : e = (e.1, SimulationEngine.SEKind.emit) := by
          rw [← hk]
        rw [← this]
        exact hemem
      | render m =>
        refine ⟨h1, h2, ?_, ?_⟩
        · intro jd hmem
          simp only [List.mem_filter] at hmem
          exact h3 jd hmem.1
        · intro jd hmem
          simp only [List.mem_filter] at hmem
          exact h4 jd hmem.1
      | streamEmit =>
        have hstr : ∃ st, s.streamer = some st ∧ st.timerId = some e.1 ∧ st.stopped = false := by
          apply h4 e.1
          have : e = (e.1, SimulationEngine.SEKind.streamEmit) := by
            rw [← hk]
          rw [← this]
          exact hemem
        obtain ⟨st, hst, htid, hstp⟩ := hstr
        unfold SimulationEngine.fireStream
        simp only [hst, hstp, Bool.false_eq_true, if_false]
        cases hm : env.streamMsg st.sidx with
        | error er =>
          refine ⟨h1, h2, ?_, ?_⟩
          · intro jd hmem
            simp only [List.mem_filter] at hmem
            exact h3 jd hmem.1
          · intro jd hmem
            simp only [List.mem_filter] at hmem
            obtain ⟨st2, hst2, htid2, _⟩ := h4 jd hmem.1
            rw [hst] at hst2
            have hj : jd = e.1 := by
              cases Option.some.inj hst2
              rw [htid] at htid2
              exact (Option.some.inj htid2).symm
            exfalso
            rw [hj, hid] at hmem
            simp at hmem
        | ok m =>
          refine ⟨h1, h2, ?_, ?_⟩
          · intro jd hmem
            simp only [List.mem_append, List.mem_singleton, List.mem_filter] at hmem
            rcases hmem with hmem | hmem
            · exact h3 jd hmem.1
            · exact absurd hmem (by simp)
          · intro jd hmem
            simp only [List.mem_append, List.mem_singleton, List.mem_filter] at hmem
            rcases hmem with hmem | hmem
            · obtain ⟨st2, hst2, htid2, _⟩ := h4 jd hmem.1
              rw [hst] at hst2
              have hj : jd = e.1 := by
                cases hst2
                rw [htid] at htid2
                exact (Option.some.inj htid2).symm
              exfalso
              rw [hj, hid] at hmem
              simp at hmem
            · simp only [Prod.mk.injEq] at hmem
              exact ⟨_, rfl, by rw [hmem.1], rfl⟩

/-- Helper: the invariant survives an arbitrary suffix of events. -/
theorem se_inv_fold (env : SimulationEngine.SEEnv) (ops : List SimulationEngine.SEOp) :
    ∀ s, SimulationEngine.seInv s →
      SimulationEngine.seInv (ops.foldl (fun s op => SimulationEngine.stepSE env op s) s) := by
  induction ops with
  | nil => intro s h; exact h
  | cons op rest ih => intro s h; exact ih _ (se_inv_step env op s h)

/-- Helper: every reachable engine state satisfies the invariant. -/
theorem se_inv_run (cfg : SimulationEngine.SECfg) (env : SimulationEngine.SEEnv)
    (ops : List SimulationEngine.SEOp) :
    SimulationEngine.seInv (SimulationEngine.runSE cfg env ops) :=
  se_inv_fold env ops _ (se_inv_init cfg)

/-- C7 (amended).  After any execution ending in `stop()`, the engine is
not running, the tracked manual-loop timer and the streamer (with its
emission timer) are cleared synchronously, and every `setTimeout`
callback still armed is a delayed message render — never a next-emission
timer; and a subsequent `start()` neither rewinds the message cursor nor
replays rendered messages.  The original claim is stronger — that no
scheduled callback at all survives `stop()` — and is refuted by
`se_stop_pending_render_C7_counterexample`: the typing-branch render
timeouts are tracked nowhere and survive. -/
theorem se_stop_clears_engine_timers_C7
    (cfg : SimulationEngine.SECfg) (env : SimulationEngine.SEEnv)
    (ops : List SimulationEngine.SEOp) :
    (SimulationEngine.runSE cfg env (ops ++ [SimulationEngine.SEOp.stop])).running = false ∧
    (SimulationEngine.runSE cfg env (ops ++ [SimulationEngine.SEOp.stop])).timer = none ∧
    (SimulationEngine.runSE cfg env (ops ++ [SimulationEngine.SEOp.stop])).streamer = none ∧
    (SimulationEngine.runSE cfg env (ops ++ [SimulationEngine.SEOp.stop])).pending.all
      (fun e => e.2.isRender) = true ∧
    (SimulationEngine.runSE cfg env
        (ops ++ [SimulationEngine.SEOp.stop, SimulationEngine.SEOp.start])).pageIdx =
      (SimulationEngine.runSE cfg env (ops ++ [SimulationEngine.SEOp.stop])).pageIdx ∧
    (SimulationEngine.runSE cfg env
        (ops ++ [SimulationEngine.SEOp.stop, SimulationEngine.SEOp.start])).rendered =
      (SimulationEngine.runSE cfg env (ops ++ [SimulationEngine.SEOp.stop])).rendered := by
  have hrw : SimulationEngine.runSE cfg env (ops ++ [SimulationEngine.SEOp.stop])
      = SimulationEngine.stopSE (SimulationEngine.runSE cfg env ops) := by
    unfold SimulationEngine.runSE
    rw [List.foldl_append]
    rfl
  have hrw2 : SimulationEngine.runSE cfg env
        (ops ++ [SimulationEngine.SEOp.stop, SimulationEngine.SEOp.start])
      = SimulationEngine.startSE env
          (SimulationEngine.stopSE (SimulationEngine.runSE cfg env ops)) := by
    unfold SimulationEngine.runSE
    rw [List.foldl_append]
    rfl
  obtain ⟨h1, h2, h3, h4⟩ := se_inv_run cfg env ops
  rw [hrw, hrw2]
  refine ⟨(se_stop_shape _).1, (se_stop_shape _).2.1, (se_stop_shape _).2.2, ?_,
    (se_start_preserves env _).1, (se_start_preserves env _).2⟩
  rw [List.all_eq_true]
  intro e he
  cases hk : e.2 with
  | emit =>
    exfalso
    apply h3 e.1
    apply se_stop_pending_sub
    rw [← hk]
    exact he
  | render m => simp [SimulationEngine.SEKind.isRender]
  | streamEmit =>
    exfalso
    apply se_stop_no_stream (SimulationEngine.runSE cfg env ops) h4 e.1
    rw [← hk]
    exact he

/-- Counterexample to the literal C7.  With default configuration
(`simulateTypingBeforeSend` on) a single `triggerOnce()` whose typing
draw hits schedules the message render through an anonymous untracked
`setTimeout`; the immediately following `stop()` cannot cancel it, so a
scheduled callback survives `stop()` and firing it afterwards still
renders the message. -/
theorem se_stop_pending_render_C7_counterexample :
    (SimulationEngine.runSE SimulationEngine.DEFAULTS SimulationEngine.se0Env
        [SimulationEngine.SEOp.triggerOnce, SimulationEngine.SEOp.stop]).pending
      = [(0, SimulationEngine.SEKind.render SimulationEngine.seMsg0)] ∧
    (SimulationEngine.stepSE SimulationEngine.se0Env (SimulationEngine.SEOp.fire 0)
        (SimulationEngine.runSE SimulationEngine.DEFAULTS SimulationEngine.se0Env
          [SimulationEngine.SEOp.triggerOnce, SimulationEngine.SEOp.stop])).rendered
      = [SimulationEngine.seMsg0] := by
  refine ⟨by decide, by decide⟩
